import Mathlib

/-!
Shallow embedding of the FyersAlgo multi-strategy trading core and proofs
about it.  Python floats are modelled as exact rationals (ℚ), with a small
wrapper type for the `float('inf')` sentinel; volumes and quantities are
naturals/integers; dictionaries are association lists in insertion order;
fallible code paths (caught exceptions) are modelled with `Option`.
Wall-clock timestamps irrelevant to the verified properties are omitted
from the records; times that matter (the scalping cooldown clock) are
explicit ℚ-valued parameters.
-/

unseal Rat.add Rat.mul Rat.inv Rat.sub Rat.ofScientific

/-- Sectors, from config/settings (referenced throughout src). -/
inductive Sector where
  | FMCG | IT | BANKING | AUTO | PHARMA | METALS | REALTY
deriving DecidableEq, Repr

/-- MarketData record, src/models/trading_models.py (timestamp omitted). -/
structure MarketData where
  symbol : String
  currentPrice : ℚ
  openPrice : ℚ
  highPrice : ℚ
  lowPrice : ℚ
  volume : ℕ
  previousClose : ℚ
deriving DecidableEq, Repr

/-- Python float that may be the `float('inf')` sentinel. -/
inductive PyFloat where
  | fin (q : ℚ)
  | inf
deriving DecidableEq, Repr

/-- Comparison `x >= q` on a possibly-infinite float against a finite bound. -/
def PyFloat.geQ (x : PyFloat) (q : ℚ) : Bool :=
  match x with
  | .inf => true
  | .fin a => decide (q ≤ a)

/-- Comparison `x <= q` on a possibly-infinite float against a finite bound. -/
def PyFloat.leQ (x : PyFloat) (q : ℚ) : Bool :=
  match x with
  | .inf => false
  | .fin a => decide (a ≤ q)

/-- TradingSignal record, src/models/trading_models.py (timestamp omitted).
`volumeRatio` is a `PyFloat` because the scalping generator stores the
possibly-infinite book imbalance there. -/
structure TradingSignal where
  symbol : String
  sector : Sector
  signalType : String
  entryPrice : ℚ
  stopLoss : ℚ
  targetPrice : ℚ
  confidence : ℚ
  gapPercentage : ℚ
  sellingPressureScore : ℚ
  volumeRatio : PyFloat
deriving DecidableEq, Repr

/-- Position record, src/models/trading_models.py (entry_time omitted). -/
structure Position where
  symbol : String
  entryPrice : ℚ
  quantity : ℤ
  stopLoss : ℚ
  targetPrice : ℚ
  sector : Sector
  orderId : Option String
  slOrderId : Option String
deriving DecidableEq, Repr

/-- Closed-position record appended by monitor_positions. -/
structure ClosedPosRec where
  symbol : String
  reason : String
  pnl : ℚ
deriving DecidableEq, Repr

/-- PnLSummary record, src/models/trading_models.py. -/
structure PnLSummary where
  realizedPnl : ℚ
  unrealizedPnl : ℚ
  closedPositions : List ClosedPosRec
deriving DecidableEq, Repr

/-- Risk-status dict of RiskManager.check_portfolio_risk
(src/utils/risk_manager.py); the human-readable `violations` strings are
display-only formatting and are omitted. -/
structure RiskStatus where
  status : String
  actionsRequired : List String
deriving DecidableEq, Repr

/-- MultiStrategyConfig, src/config/breakout_settings.py (fields used by
RiskManager). -/
structure MultiStrategyConfig where
  maxTotalPositions : ℕ
  maxGapUpPositions : ℕ
  maxBreakoutPositions : ℕ
  portfolioStopLoss : ℚ
  dailyProfitTarget : ℚ
deriving DecidableEq, Repr

/-- StrategyConfig from config/settings (fields read by the gap-short
generator and the position service in src/). -/
structure StrategyConfig where
  portfolioValue : ℚ
  riskPerTradePct : ℚ
  minGapPercentage : ℚ
  minSellingPressure : ℚ
  minVolumeRatio : ℚ
  stopLossPct : ℚ
  targetPct : ℚ
  minConfidence : ℚ
deriving DecidableEq, Repr

/-- RiskManager.check_portfolio_risk, src/utils/risk_manager.py lines 27-54.
State fields daily_start_portfolio_value / current_portfolio_value are passed
explicitly. -/
def checkPortfolioRisk (cfg : MultiStrategyConfig) (dayStart current : ℚ) : RiskStatus :=
  if dayStart ≤ 0 then ⟨"SAFE", []⟩
  else
    let dailyPnlPct := (current - dayStart) / dayStart * 100
    if dailyPnlPct ≤ -cfg.portfolioStopLoss then
      ⟨"STOP_LOSS_HIT", ["CLOSE_ALL_POSITIONS"]⟩
    else if dailyPnlPct ≥ cfg.dailyProfitTarget then
      ⟨"PROFIT_TARGET_HIT", ["CONSIDER_CLOSING_POSITIONS"]⟩
    else ⟨"SAFE", []⟩

/-- RiskManager.check_position_correlation, src/utils/risk_manager.py
lines 56-74. -/
def checkPositionCorrelation (existing : List Position) (newSymbol : String)
    (newSector : Sector) : Bool :=
  let sectorCount := (existing.filter (fun p => p.sector == newSector)).length
  if 2 ≤ sectorCount then false
  else if existing.any (fun p => p.symbol == newSymbol) then false
  else true

/-- RiskManager.calculate_position_size_with_correlation, src/utils/risk_manager.py
lines 76-91. -/
def calculatePositionSizeWithCorrelation (baseQuantity : ℤ)
    (existing : List Position) (newSector : Sector) : ℤ :=
  let sectorPositions := existing.filter (fun p => p.sector == newSector)
  if 1 ≤ sectorPositions.length then
    Int.floor ((baseQuantity : ℚ) * (7 / 10))
  else baseQuantity

/-- RiskManager.should_allow_new_position, src/utils/risk_manager.py
lines 93-118.  The two position dicts are passed as association lists. -/
def shouldAllowNewPosition (cfg : MultiStrategyConfig) (dayStart current : ℚ)
    (strategyName : String) (currentPositions breakoutPositions : List (String × Position)) :
    Bool :=
  let totalPositions := currentPositions.length + breakoutPositions.length
  if cfg.maxTotalPositions ≤ totalPositions then false
  else if strategyName = "gap_up_short" ∧ cfg.maxGapUpPositions ≤ currentPositions.length then
    false
  else if strategyName = "breakout" ∧ cfg.maxBreakoutPositions ≤ breakoutPositions.length then
    false
  else if (checkPortfolioRisk cfg dayStart current).status ≠ "SAFE" then false
  else true

/-- Python's min on two numbers. -/
def pyMin (a b : ℚ) : ℚ := if a ≤ b then a else b

/-- Python's max on two numbers. -/
def pyMax (a b : ℚ) : ℚ := if a ≤ b then b else a

/-- Python's max on two ints. -/
def pyMaxInt (a b : ℤ) : ℤ := if a ≤ b then b else a

/-- Python's abs on a number. -/
def pyAbs (x : ℚ) : ℚ := if x < 0 then -x else x

/-- Truncation toward zero, Python's int() on a float (the numerator divided
by the positive denominator with integer T-division). -/
def pyInt (x : ℚ) : ℤ := x.num / (x.den : ℤ)

/-- PositionManagementService.calculate_position_size,
src/services/position_service.py lines 21-35. -/
def calculatePositionSize (signal : TradingSignal) (cfg : StrategyConfig) : ℤ :=
  let riskAmount := cfg.portfolioValue * (cfg.riskPerTradePct / 100)
  let priceRisk := pyAbs (signal.stopLoss - signal.entryPrice)
  if priceRisk ≤ 0 then 0
  else pyMaxInt (pyInt (riskAmount / priceRisk)) 0

/-- Arguments of a broker.place_bracket_order call. -/
structure BracketOrderCall where
  symbol : String
  quantity : ℤ
  price : ℚ
  stopLoss : ℚ
  target : ℚ
deriving DecidableEq, Repr

/-- Broker order placement result (the dict whose id the service reads). -/
structure OrderResult where
  id : Option String
deriving DecidableEq, Repr

/-- PositionManagementService.execute_trade, src/services/position_service.py
lines 37-60.  The broker is a function parameter; the second component of the
result records the bracket-order calls actually issued, so that the absence of
broker side effects is observable. -/
def executeTrade (placeBracketOrder : BracketOrderCall → Option OrderResult)
    (signal : TradingSignal) (quantity : ℤ) : Option OrderResult × List BracketOrderCall :=
  if quantity ≤ 0 then (none, [])
  else
    let call : BracketOrderCall :=
      ⟨signal.symbol, quantity, signal.entryPrice, signal.stopLoss, signal.targetPrice⟩
    (placeBracketOrder call, [call])

/-- Broker-reported position row (fields read by monitor_positions). -/
structure BrokerPositionRec where
  symbol : String
  ltp : ℚ
deriving DecidableEq, Repr

/-- Broker-reported order row (fields read by monitor_positions). -/
structure BrokerOrderRec where
  id : Option String
  status : String
deriving DecidableEq, Repr

/-- Does the list `hay` start with the list `ned`. -/
def listStartsWith : List Char → List Char → Bool
  | _, [] => true
  | [], _ :: _ => false
  | a :: hay, b :: ned => if a = b then listStartsWith hay ned else false

/-- Does the list `hay` contain `ned` as a contiguous run. -/
def listContainsSub : List Char → List Char → Bool
  | [], ned => ned.isEmpty
  | a :: t, ned => listStartsWith (a :: t) ned || listContainsSub t ned

/-- Python's substring test `ned in hay`. -/
def strContainsSub (hay ned : String) : Bool := listContainsSub hay.toList ned.toList

/-- PositionManagementService._find_broker_position,
src/services/position_service.py lines 109-116 (`symbol in pos['symbol']` is a
substring test). -/
def findBrokerPosition (symbol : String) (brokerPositions : List BrokerPositionRec) :
    Option BrokerPositionRec :=
  brokerPositions.find? (fun p => strContainsSub p.symbol symbol)

/-- PositionManagementService._find_order_info, src/services/position_service.py
lines 118-123. -/
def findOrderInfo (orderId : Option String) (orders : List BrokerOrderRec) :
    Option BrokerOrderRec :=
  orders.find? (fun o => o.id == orderId)

/-- PositionManagementService._calculate_realized_pnl,
src/services/position_service.py lines 125-129 (exit price defaults to the
stop loss). -/
def calculateRealizedPnl (position : Position) : ℚ :=
  (position.entryPrice - position.stopLoss) * position.quantity

/-- Accumulator of the monitor_positions loop. -/
structure MonitorAcc where
  realized : ℚ
  unrealized : ℚ
  closedRecs : List ClosedPosRec
  closedSyms : List String
deriving DecidableEq, Repr

/-- Loop body of PositionManagementService.monitor_positions,
src/services/position_service.py lines 70-97, iterating the positions dict in
insertion order (contributions are accumulated; addition order is immaterial). -/
def monitorLoop (brokerPositions : List BrokerPositionRec) (orders : List BrokerOrderRec) :
    List (String × Position) → MonitorAcc
  | [] => ⟨0, 0, [], []⟩
  | (symbol, position) :: rest =>
    let acc := monitorLoop brokerPositions orders rest
    match findBrokerPosition symbol brokerPositions with
    | some bp =>
      ⟨acc.realized, acc.unrealized + (position.entryPrice - bp.ltp) * position.quantity,
       acc.closedRecs, acc.closedSyms⟩
    | none =>
      match findOrderInfo position.orderId orders with
      | some oi =>
        if oi.status == "TRADED" || oi.status == "COMPLETE" then
          ⟨acc.realized + calculateRealizedPnl position, acc.unrealized,
           ⟨symbol, "BRACKET_EXECUTED", calculateRealizedPnl position⟩ :: acc.closedRecs,
           symbol :: acc.closedSyms⟩
        else acc
      | none => acc

/-- PositionManagementService.monitor_positions, src/services/position_service.py
lines 62-107: returns the PnL summary and the positions dict after the closed
symbols are deleted. -/
def monitorPositions (brokerPositions : List BrokerPositionRec) (orders : List BrokerOrderRec)
    (positions : List (String × Position)) : PnLSummary × List (String × Position) :=
  let acc := monitorLoop brokerPositions orders positions
  (⟨acc.realized, acc.unrealized, acc.closedRecs⟩,
   positions.filter (fun e => ! acc.closedSyms.contains e.1))

/-- Order-book level, src/strategies/level2_scalping_strategy.py lines 56-62. -/
structure OrderBookLevel where
  price : ℚ
  quantity : ℕ
  orders : ℕ
  side : String
deriving DecidableEq, Repr

/-- Order-book snapshot, src/strategies/level2_scalping_strategy.py lines 65-73
(timestamp omitted). -/
structure OrderBookSnapshot where
  symbol : String
  bids : List OrderBookLevel
  asks : List OrderBookLevel
  lastTradedPrice : ℚ
  lastTradedQuantity : ℕ
deriving DecidableEq, Repr

/-- Level2DataService.calculate_bid_ask_imbalance,
src/strategies/level2_scalping_strategy.py lines 134-146. -/
def calculateBidAskImbalance (ob : OrderBookSnapshot) : PyFloat :=
  if ob.bids.isEmpty ∨ ob.asks.isEmpty then .fin 1
  else
    let totalBidVolume : ℕ := ((ob.bids.take 3).map (fun l => l.quantity)).sum
    let totalAskVolume : ℕ := ((ob.asks.take 3).map (fun l => l.quantity)).sum
    if totalAskVolume = 0 then .inf
    else .fin ((totalBidVolume : ℚ) / (totalAskVolume : ℚ))

/-- Order-book snapshot of the enhanced service,
src/services/enhanced_fyers_service.py lines 27-37 (extra spread/mid_price
fields; symbol/timestamp/last-trade fields omitted). -/
structure EnhOrderBookSnapshot where
  bids : List OrderBookLevel
  asks : List OrderBookLevel
  spread : ℚ
  midPrice : ℚ
deriving DecidableEq, Repr

/-- Result dict of EnhancedFyersService.analyze_order_book_imbalance; the
percentage/spread entries only exist in the non-degenerate branch. -/
structure ImbalanceAnalysis where
  bidVolume : ℕ
  askVolume : ℕ
  ratioVal : PyFloat
  extra : Option (ℚ × ℚ × ℚ)
deriving DecidableEq, Repr

/-- EnhancedFyersService.analyze_order_book_imbalance,
src/services/enhanced_fyers_service.py lines 218-246. -/
def analyzeOrderBookImbalance (ob : EnhOrderBookSnapshot) (levels : ℕ) : ImbalanceAnalysis :=
  if ob.bids.isEmpty ∨ ob.asks.isEmpty then ⟨0, 0, .fin 1, none⟩
  else
    let bidVolume := ((ob.bids.take levels).map (fun l => l.quantity)).sum
    let askVolume := ((ob.asks.take levels).map (fun l => l.quantity)).sum
    let totalVolume := bidVolume + askVolume
    if totalVolume = 0 then ⟨0, 0, .fin 1, none⟩
    else
      let ratioVal := if 0 < askVolume then PyFloat.fin ((bidVolume : ℚ) / (askVolume : ℚ))
        else PyFloat.inf
      let spreadBps := if 0 < ob.midPrice then ob.spread / ob.midPrice * 10000 else 0
      ⟨bidVolume, askVolume, ratioVal,
       some ((bidVolume : ℚ) / (totalVolume : ℚ) * 100,
             (askVolume : ℚ) / (totalVolume : ℚ) * 100, spreadBps)⟩

/-- Stable insertion of a signal into a confidence-descending list: the new
element goes after every already-placed element of confidence ≥ its own,
exactly where Python's stable `sort(key=confidence, reverse=True)` keeps it. -/
def insertByConfidence (s : TradingSignal) : List TradingSignal → List TradingSignal
  | [] => [s]
  | t :: ts => if t.confidence < s.confidence then s :: t :: ts else t :: insertByConfidence s ts

/-- `signals.sort(key=lambda x: x.confidence, reverse=True)`: the unique
confidence-descending reordering that keeps elements of equal confidence in
their original relative order. -/
def sortByConfidenceDesc (l : List TradingSignal) : List TradingSignal :=
  l.foldl (fun acc s => insertByConfidence s acc) []

/-- Descending-confidence relation between adjacent output signals. -/
def ConfDesc (a b : TradingSignal) : Prop := b.confidence ≤ a.confidence

/-- Sector weights of SignalGenerationService, src/services/signal_service.py
lines 20-28 (the dict covers every sector; `.get(sector, 0.5)` never falls
through to the default). -/
def sectorWeightsGap : Sector → ℚ
  | .FMCG => 1
  | .IT => 0.9
  | .BANKING => 0.6
  | .AUTO => 0.3
  | .PHARMA => 0.7
  | .METALS => 0.5
  | .REALTY => 0.4

/-- stock_sectors dict of SignalGenerationService in insertion order,
src/services/signal_service.py lines 30-59. -/
def stockSectors : List (String × Sector) :=
  [("NESTLEIND.NS", .FMCG), ("COLPAL.NS", .FMCG), ("TATACONSUM.NS", .FMCG),
   ("HINDUNILVR.NS", .FMCG), ("ITC.NS", .FMCG), ("BRITANNIA.NS", .FMCG),
   ("DABUR.NS", .FMCG), ("MARICO.NS", .FMCG),
   ("TCS.NS", .IT), ("INFY.NS", .IT), ("WIPRO.NS", .IT), ("HCLTECH.NS", .IT),
   ("TECHM.NS", .IT), ("LTI.NS", .IT), ("COFORGE.NS", .IT), ("PERSISTENT.NS", .IT),
   ("HDFCBANK.NS", .BANKING), ("ICICIBANK.NS", .BANKING), ("SBIN.NS", .BANKING),
   ("AXISBANK.NS", .BANKING), ("KOTAKBANK.NS", .BANKING), ("INDUSINDBK.NS", .BANKING),
   ("MARUTI.NS", .AUTO), ("TATAMOTORS.NS", .AUTO), ("BAJAJ-AUTO.NS", .AUTO),
   ("M&M.NS", .AUTO), ("HEROMOTOCO.NS", .AUTO), ("EICHERMOT.NS", .AUTO)]

/-- Final clamp of TechnicalAnalysisService.calculate_selling_pressure_score,
src/services/analysis_service.py lines 47-55: the weighted blend of the five
pandas-derived indicators is the input `raw`; this models
`min(max(score, 0), 100)` (the exception path returning 0.0 equals the clamp
of any raw ≤ 0). -/
def calculateSellingPressureScore (raw : ℚ) : ℚ := pyMin (pyMax raw 0) 100

/-- TechnicalAnalysisService.calculate_volume_ratio,
src/services/analysis_service.py lines 73-95, over the extracted numeric
inputs: the day's traded volume, the raw market-hours-elapsed figure (from the
wall clock) and the 20-day average volume (mean of the history; 0 when the
history is empty, which lands in the same `else 1.0` branch as the source's
early return). -/
def calculateVolumeRatio (volume : ℕ) (hoursElapsedRaw : ℚ) (avgVolume : ℚ) : ℚ :=
  let marketHoursElapsed := pyMax hoursElapsedRaw 0.5
  let estimatedFullDayVolume := (volume : ℚ) * (6.5 / marketHoursElapsed)
  if 0 < avgVolume then estimatedFullDayVolume / avgVolume else 1

/-- External data consumed by one call of the gap-short generator: the index
gap, the quotes dict, and the per-symbol analysis-service inputs. -/
structure GapShortInputs where
  indexGapPercentage : ℚ
  marketData : String → Option MarketData
  sellingPressureRaw : String → ℚ
  avgVolume20d : String → ℚ
  hoursElapsedRaw : ℚ

/-- Per-symbol body of SignalGenerationService.generate_signals,
src/services/signal_service.py lines 75-128.  A previous close of 0 makes the
gap computation raise ZeroDivisionError, which the per-symbol handler swallows
(the symbol is skipped). -/
def gapShortScanSymbol (cfg : StrategyConfig) (inp : GapShortInputs)
    (symbol : String) (sector : Sector) : Option TradingSignal :=
  match inp.marketData symbol with
  | none => none
  | some md =>
    if md.previousClose = 0 then none
    else
      let gapPercentage := (md.openPrice - md.previousClose) / md.previousClose * 100
      if gapPercentage < cfg.minGapPercentage then none
      else
        let sellingPressure := calculateSellingPressureScore (inp.sellingPressureRaw symbol)
        let volumeRatio := calculateVolumeRatio md.volume inp.hoursElapsedRaw
          (inp.avgVolume20d symbol)
        if cfg.minSellingPressure ≤ sellingPressure ∧ cfg.minVolumeRatio ≤ volumeRatio then
          let sectorPreference := sectorWeightsGap sector
          let confidence := sellingPressure / 100 * 0.4 + pyMin (volumeRatio / 3) 1 * 0.3 +
            gapPercentage / 5 * 0.2 + sectorPreference * 0.1
          let stopLoss := md.currentPrice * (1 + cfg.stopLossPct / 100)
          let targetPrice := md.currentPrice * (1 - cfg.targetPct / 100)
          some ⟨symbol, sector, "SHORT", md.currentPrice, stopLoss, targetPrice, confidence,
                gapPercentage, sellingPressure, .fin volumeRatio⟩
        else none

/-- The per-symbol evaluation loop of generate_signals over the whole stock
universe, before sorting. -/
def gapShortScan (cfg : StrategyConfig) (inp : GapShortInputs) : List TradingSignal :=
  stockSectors.filterMap (fun p => gapShortScanSymbol cfg inp p.1 p.2)

/-- SignalGenerationService.generate_signals, src/services/signal_service.py
lines 61-132: early return on a non-positive index gap, otherwise the
per-symbol scan sorted by confidence (stable descending). -/
def generateSignals (cfg : StrategyConfig) (inp : GapShortInputs) : List TradingSignal :=
  if inp.indexGapPercentage ≤ 0 then []
  else sortByConfidenceDesc (gapShortScan cfg inp)

/-- BreakoutConfig, src/strategies/open_breakout_strategy.py lines 16-24
(fields read by the signal generator). -/
structure BreakoutConfig where
  minBreakoutPercentage : ℚ
  minVolumeMultiplier : ℚ
  minPriceRange : ℚ
  maxPriceRange : ℚ
  riskRewardRatio : ℚ
deriving DecidableEq, Repr

/-- breakout_stocks dict of OpenBreakoutSignalService in insertion order,
src/strategies/open_breakout_strategy.py lines 35-57. -/
def breakoutStocks : List (String × Sector) :=
  [("RELIANCE.NS", .AUTO), ("TCS.NS", .IT), ("HDFCBANK.NS", .BANKING),
   ("INFY.NS", .IT), ("ICICIBANK.NS", .BANKING), ("HINDUNILVR.NS", .FMCG),
   ("ITC.NS", .FMCG), ("SBIN.NS", .BANKING), ("BAJFINANCE.NS", .BANKING),
   ("MARUTI.NS", .AUTO), ("TATAMOTORS.NS", .AUTO), ("WIPRO.NS", .IT),
   ("AXISBANK.NS", .BANKING), ("ULTRACEMCO.NS", .METALS), ("ASIANPAINT.NS", .FMCG),
   ("NESTLEIND.NS", .FMCG), ("KOTAKBANK.NS", .BANKING), ("LT.NS", .METALS),
   ("TECHM.NS", .IT), ("HCLTECH.NS", .IT)]

/-- Breakout sector weights, src/strategies/open_breakout_strategy.py
lines 60-68 (every sector is a key, so `.get(sector, 0.5)` never defaults). -/
def sectorWeightsBreakout : Sector → ℚ
  | .IT => 1
  | .BANKING => 0.9
  | .AUTO => 0.8
  | .FMCG => 0.7
  | .METALS => 0.8
  | .PHARMA => 0.6
  | .REALTY => 0.7

/-- Opening-range dict, src/strategies/open_breakout_strategy.py lines 83-89. -/
structure OpeningRange where
  high : ℚ
  low : ℚ
  rangeSize : ℚ
  volume : ℕ
  openPrice : ℚ
deriving DecidableEq, Repr

/-- OpenBreakoutSignalService.calculate_opening_range,
src/strategies/open_breakout_strategy.py lines 70-95: the simulated range is
derived from the open price of the same quotes map. -/
def calculateOpeningRange (marketData : String → Option MarketData) (symbol : String) :
    Option OpeningRange :=
  (marketData symbol).map (fun md =>
    ⟨md.openPrice * 1.01, md.openPrice * 0.99, md.openPrice * 0.02, md.volume, md.openPrice⟩)

/-- OpenBreakoutSignalService.calculate_breakout_strength,
src/strategies/open_breakout_strategy.py lines 97-119.  A zero range size
makes the division raise; the function's own handler returns 0.0. -/
def calculateBreakoutStrength (md : MarketData) (r : OpeningRange) : ℚ :=
  let breakoutDistance := md.currentPrice - r.high
  if breakoutDistance ≤ 0 then 0
  else if r.rangeSize = 0 then 0
  else
    let strength := breakoutDistance / r.rangeSize * 100
    let volumeStrength := if 0 < r.volume then pyMin ((md.volume : ℚ) / (r.volume : ℚ)) 3 else 1
    pyMin (strength * volumeStrength * 0.5) 100

/-- Normalization step of OpenBreakoutSignalService._calculate_momentum_score,
src/strategies/open_breakout_strategy.py lines 240-243, over the raw pandas
momentum figure (the short-history and exception paths return 50, which equals
the clamp at raw 0). -/
def normalizeMomentum (raw : ℚ) : ℚ := pyMin (pyMax (raw * 10 + 50) 0) 100

/-- External data consumed by one call of the breakout generator. -/
structure BreakoutInputs where
  marketData : String → Option MarketData
  avgVolume20d : String → ℚ
  momentumRaw : String → ℚ

/-- Per-symbol body of OpenBreakoutSignalService.generate_breakout_signals,
src/strategies/open_breakout_strategy.py lines 131-209.  A range high of 0
makes the breakout-percentage division raise ZeroDivisionError, which the
per-symbol handler swallows. -/
def breakoutScanSymbol (sCfg : StrategyConfig) (bCfg : BreakoutConfig)
    (inp : BreakoutInputs) (symbol : String) (sector : Sector) : Option TradingSignal :=
  match inp.marketData symbol with
  | none => none
  | some md =>
    match calculateOpeningRange inp.marketData symbol with
    | none => none
    | some r =>
      if md.currentPrice ≤ r.high then none
      else if r.high = 0 then none
      else
        let breakoutPercentage := (md.currentPrice - r.high) / r.high * 100
        if breakoutPercentage < bCfg.minBreakoutPercentage then none
        else if r.rangeSize < bCfg.minPriceRange ∨ bCfg.maxPriceRange < r.rangeSize then none
        else
          let avgVolume := inp.avgVolume20d symbol
          let volumeRatio := if 0 < avgVolume then (md.volume : ℚ) / avgVolume else 1
          if volumeRatio < bCfg.minVolumeMultiplier then none
          else
            let breakoutStrength := calculateBreakoutStrength md r
            let momentumScore := normalizeMomentum (inp.momentumRaw symbol)
            let sectorPreference := sectorWeightsBreakout sector
            let confidence := breakoutStrength / 100 * 0.3 + pyMin (volumeRatio / 3) 1 * 0.25 +
              breakoutPercentage / 10 * 0.2 + momentumScore / 100 * 0.15 +
              sectorPreference * 0.1
            if confidence < sCfg.minConfidence then none
            else
              let stopLoss := r.low
              let risk := md.currentPrice - stopLoss
              let targetPrice := md.currentPrice + risk * bCfg.riskRewardRatio
              some ⟨symbol, sector, "LONG_BREAKOUT", md.currentPrice, stopLoss, targetPrice,
                    confidence, breakoutPercentage, 0, .fin volumeRatio⟩

/-- OpenBreakoutSignalService.generate_breakout_signals,
src/strategies/open_breakout_strategy.py lines 121-217. -/
def generateBreakoutSignals (sCfg : StrategyConfig) (bCfg : BreakoutConfig)
    (inp : BreakoutInputs) : List TradingSignal :=
  sortByConfidenceDesc (breakoutStocks.filterMap (fun p => breakoutScanSymbol sCfg bCfg inp p.1 p.2))

/-- ScalpingConfig, src/strategies/level2_scalping_strategy.py lines 28-53
(fields read by the signal service; `min_volume_at_level` and the tick counts
are Python ints). -/
structure ScalpingConfig where
  minBidAskImbalanceRatio : ℚ
  minVolumeAtLevel : ℤ
  stopLossTicks : ℤ
  targetTicks : ℤ
  cooldownSeconds : ℚ
  minSpreadTicks : ℤ
  maxSpreadTicks : ℤ
  minConfidence : ℚ
deriving DecidableEq, Repr

/-- scalping_universe dict of Level2ScalpingSignalService in insertion order,
src/strategies/level2_scalping_strategy.py lines 178-189. -/
def scalpingUniverse : List (String × Sector) :=
  [("RELIANCE.NS", .AUTO), ("TCS.NS", .IT), ("HDFCBANK.NS", .BANKING),
   ("INFY.NS", .IT), ("ICICIBANK.NS", .BANKING), ("ITC.NS", .FMCG),
   ("SBIN.NS", .BANKING), ("HINDUNILVR.NS", .FMCG), ("LT.NS", .METALS),
   ("AXISBANK.NS", .BANKING)]

/-- Lookup in the recent_signals dict (symbol → last signal time). -/
def assocFind : List (String × ℚ) → String → Option ℚ
  | [], _ => none
  | (k, v) :: rest, s => if k = s then some v else assocFind rest s

/-- Assignment `d[symbol] = t` on the recent_signals dict. -/
def assocSet : List (String × ℚ) → String → ℚ → List (String × ℚ)
  | [], s, t => [(s, t)]
  | (k, v) :: rest, s, t => if k = s then (s, t) :: rest else (k, v) :: assocSet rest s t

/-- Level2ScalpingSignalService._is_in_cooldown,
src/strategies/level2_scalping_strategy.py lines 251-259. -/
def isInCooldown (recentSignals : List (String × ℚ)) (symbol : String)
    (cfg : ScalpingConfig) (now : ℚ) : Bool :=
  match assocFind recentSignals symbol with
  | none => false
  | some lastSignalTime => decide (now < lastSignalTime + cfg.cooldownSeconds)

/-- Level2ScalpingSignalService._record_signal_time,
src/strategies/level2_scalping_strategy.py lines 261-263. -/
def recordSignalTime (recentSignals : List (String × ℚ)) (symbol : String) (now : ℚ) :
    List (String × ℚ) :=
  assocSet recentSignals symbol now

/-- Level2ScalpingSignalService._check_spread_constraints,
src/strategies/level2_scalping_strategy.py lines 265-276 (tick size assumed
0.01: `int((best_ask - best_bid) * 100)`). -/
def checkSpreadConstraints (ob : OrderBookSnapshot) (cfg : ScalpingConfig) : Bool :=
  match ob.bids, ob.asks with
  | bestBid :: _, bestAsk :: _ =>
    let spreadTicks := pyInt ((bestAsk.price - bestBid.price) * 100)
    decide (cfg.minSpreadTicks ≤ spreadTicks ∧ spreadTicks ≤ cfg.maxSpreadTicks)
  | _, _ => false

/-- Level2DataService.identify_support_resistance_levels,
src/strategies/level2_scalping_strategy.py lines 148-167: prices of the first
three levels holding at least min_volume_at_level, per side. -/
def identifySupportResistanceLevels (ob : OrderBookSnapshot) (cfg : ScalpingConfig) :
    List ℚ × List ℚ :=
  (((ob.bids.filter (fun l => decide (cfg.minVolumeAtLevel ≤ (l.quantity : ℤ)))).map
      (fun l => l.price)).take 3,
   ((ob.asks.filter (fun l => decide (cfg.minVolumeAtLevel ≤ (l.quantity : ℤ)))).map
      (fun l => l.price)).take 3)

/-- Level2ScalpingSignalService._check_bounce_opportunities,
src/strategies/level2_scalping_strategy.py lines 350-365.  Outer `none` models
the ZeroDivisionError raised when the current price is 0 and there is a level
to test; `some none` is the source's `return None`. -/
def checkBounceOpportunities (currentPrice : ℚ) (support resistance : List ℚ) :
    Option (Option (String × String)) :=
  if support = [] ∧ resistance = [] then some none
  else if currentPrice = 0 then none
  else if support.any (fun lvl => decide (pyAbs (currentPrice - lvl) / currentPrice ≤ 0.001)) then
    some (some ("SUPPORT_BOUNCE", "LONG"))
  else if resistance.any (fun lvl => decide (pyAbs (currentPrice - lvl) / currentPrice ≤ 0.001)) then
    some (some ("RESISTANCE_BOUNCE", "SHORT"))
  else some none

/-- Branch selection of Level2ScalpingSignalService._analyze_scalping_opportunity,
src/strategies/level2_scalping_strategy.py lines 293-315.  Outer `none` models
a ZeroDivisionError escaping to the method's handler (`1.0 / m` with m = 0, or
a bounce test at current price 0); `some none` is "no opportunity".  The entry
price is the current price in every branch. -/
def scalpChooseSide (ratioVal : PyFloat) (currentPrice : ℚ) (support resistance : List ℚ)
    (cfg : ScalpingConfig) : Option (Option (String × String)) :=
  if ratioVal.geQ cfg.minBidAskImbalanceRatio then some (some ("BID_ASK_IMBALANCE", "LONG"))
  else if cfg.minBidAskImbalanceRatio = 0 then none
  else if ratioVal.leQ (1 / cfg.minBidAskImbalanceRatio) then
    some (some ("BID_ASK_IMBALANCE", "SHORT"))
  else checkBounceOpportunities currentPrice support resistance

/-- Depth-score term of _calculate_scalping_confidence,
src/strategies/level2_scalping_strategy.py lines 374-376. -/
def scalpDepthScore (ob : OrderBookSnapshot) : ℚ :=
  pyMin ((ob.bids.length : ℚ) + (ob.asks.length : ℚ)) 10 / 10 * 0.25

/-- Imbalance-strength term of _calculate_scalping_confidence,
src/strategies/level2_scalping_strategy.py lines 378-386.  `none` models a
ZeroDivisionError (`1.0 / imbalance_ratio` with a zero finite ratio, or
`1.0 / m` with m = 0) escaping to the caller's handler. -/
def scalpImbalanceScore (ratioVal : PyFloat) (cfg : ScalpingConfig) : Option ℚ :=
  if ratioVal.geQ cfg.minBidAskImbalanceRatio then
    match ratioVal with
    | .inf => some ((1 : ℚ) * 0.35)
    | .fin q => some (pyMin (q / 5) 1 * 0.35)
  else if cfg.minBidAskImbalanceRatio = 0 then none
  else if ratioVal.leQ (1 / cfg.minBidAskImbalanceRatio) then
    match ratioVal with
    | .inf => some 0.1
    | .fin q => if q = 0 then none else some (pyMin ((1 / q) / 5) 1 * 0.35)
  else some 0.1

/-- Best-level-volume term of _calculate_scalping_confidence,
src/strategies/level2_scalping_strategy.py lines 388-394.  `none` models the
ZeroDivisionError when `min_volume_at_level * 2` is zero. -/
def scalpVolumeScore (ob : OrderBookSnapshot) (cfg : ScalpingConfig) : Option ℚ :=
  let bestBidVolume : ℕ := match ob.bids with | [] => 0 | l :: _ => l.quantity
  let bestAskVolume : ℕ := match ob.asks with | [] => 0 | l :: _ => l.quantity
  let totalVolume := bestBidVolume + bestAskVolume
  if cfg.minVolumeAtLevel * 2 = 0 then none
  else some (pyMin ((totalVolume : ℚ) / ((cfg.minVolumeAtLevel : ℚ) * 2)) 1 * 0.25)

/-- Support/resistance-proximity term of _calculate_scalping_confidence,
src/strategies/level2_scalping_strategy.py lines 396-404.  `none` models the
ZeroDivisionError of a proximity test at current price 0. -/
def scalpProximityScore (support resistance : List ℚ) (currentPrice : ℚ) : Option ℚ :=
  if support ++ resistance = [] then some 0
  else if currentPrice = 0 then none
  else some (if (support ++ resistance).any
      (fun lvl => decide (pyAbs (currentPrice - lvl) / currentPrice ≤ 0.002)) then 0.15 else 0)

/-- Level2ScalpingSignalService._calculate_scalping_confidence,
src/strategies/level2_scalping_strategy.py lines 367-406: the sum of the four
component scores clamped by `min(confidence, 1.0)`; `none` whenever a
component raises. -/
def calculateScalpingConfidence (ob : OrderBookSnapshot) (ratioVal : PyFloat)
    (support resistance : List ℚ) (currentPrice : ℚ) (cfg : ScalpingConfig) : Option ℚ :=
  match scalpImbalanceScore ratioVal cfg, scalpVolumeScore ob cfg,
      scalpProximityScore support resistance currentPrice with
  | some imbalanceScore, some volumeScore, some proximityScore =>
    some (pyMin (scalpDepthScore ob + imbalanceScore + volumeScore + proximityScore) 1)
  | _, _, _ => none

/-- Level2ScalpingSignalService._analyze_scalping_opportunity,
src/strategies/level2_scalping_strategy.py lines 278-348 (tick size hardcoded
to 0.05; gap and selling-pressure fields are 0, volume_ratio carries the
imbalance). -/
def analyzeScalpingOpportunity (symbol : String) (sector : Sector) (md : MarketData)
    (ob : OrderBookSnapshot) (cfg : ScalpingConfig) : Option TradingSignal :=
  let currentPrice := md.currentPrice
  let ratioVal := calculateBidAskImbalance ob
  let levels := identifySupportResistanceLevels ob cfg
  match scalpChooseSide ratioVal currentPrice levels.1 levels.2 cfg with
  | none => none
  | some none => none
  | some (some (signalTypeVal, side)) =>
    let tickSize : ℚ := 0.05
    let entryPrice := currentPrice
    let stopLoss := if side = "LONG" then entryPrice - cfg.stopLossTicks * tickSize
      else entryPrice + cfg.stopLossTicks * tickSize
    let targetPrice := if side = "LONG" then entryPrice + cfg.targetTicks * tickSize
      else entryPrice - cfg.targetTicks * tickSize
    match calculateScalpingConfidence ob ratioVal levels.1 levels.2 currentPrice cfg with
    | none => none
    | some confidence =>
      some ⟨symbol, sector, side ++ "_" ++ signalTypeVal, entryPrice, stopLoss, targetPrice,
            confidence, 0, 0, ratioVal⟩

/-- One iteration of the symbol loop of generate_scalping_signals,
src/strategies/level2_scalping_strategy.py lines 204-241, threading the
accumulated signal list and the recent_signals dict. -/
def scalpingStep (cfg : ScalpingConfig) (marketData : String → Option MarketData)
    (orderBookOf : String → Option OrderBookSnapshot) (now : ℚ)
    (acc : List TradingSignal × List (String × ℚ)) (entry : String × Sector) :
    List TradingSignal × List (String × ℚ) :=
  if isInCooldown acc.2 entry.1 cfg now then acc
  else
    match marketData entry.1 with
    | none => acc
    | some md =>
      match orderBookOf entry.1 with
      | none => acc
      | some ob =>
        if checkSpreadConstraints ob cfg then
          match analyzeScalpingOpportunity entry.1 entry.2 md ob cfg with
          | none => acc
          | some signal =>
            if cfg.minConfidence ≤ signal.confidence then
              (acc.1 ++ [signal], recordSignalTime acc.2 entry.1 now)
            else acc
        else acc

/-- The symbol loop of generate_scalping_signals over the whole scalping
universe, threading the signal list and the recent_signals dict. -/
def scalpingFold (cfg : ScalpingConfig) (marketData : String → Option MarketData)
    (orderBookOf : String → Option OrderBookSnapshot) (now : ℚ)
    (recentSignals : List (String × ℚ)) : List TradingSignal × List (String × ℚ) :=
  scalpingUniverse.foldl (scalpingStep cfg marketData orderBookOf now) ([], recentSignals)

/-- Level2ScalpingSignalService.generate_scalping_signals,
src/strategies/level2_scalping_strategy.py lines 194-249: returns the sorted
signals and the updated recent_signals dict.  The wall clock reads inside one
call (cooldown check and signal-time record) are modelled as the single call
time `now`. -/
def generateScalpingSignals (cfg : ScalpingConfig) (marketData : String → Option MarketData)
    (orderBookOf : String → Option OrderBookSnapshot) (recentSignals : List (String × ℚ))
    (now : ℚ) : List TradingSignal × List (String × ℚ) :=
  (sortByConfidenceDesc (scalpingFold cfg marketData orderBookOf now recentSignals).1,
   (scalpingFold cfg marketData orderBookOf now recentSignals).2)

/-- A sequence of generate_scalping_signals calls on one service instance:
each call supplies its wall-clock time and the market/order-book data it
observes; the recent_signals state persists across calls.  Returns the output
of every call and the final state. -/
def runScalpingCalls (cfg : ScalpingConfig)
    (calls : List (ℚ × (String → Option MarketData) × (String → Option OrderBookSnapshot)))
    (recentSignals : List (String × ℚ)) :
    List (List TradingSignal) × List (String × ℚ) :=
  match calls with
  | [] => ([], recentSignals)
  | (now, marketData, orderBookOf) :: rest =>
    let res := generateScalpingSignals cfg marketData orderBookOf recentSignals now
    let tail := runScalpingCalls cfg rest res.2
    (res.1 :: tail.1, tail.2)

/-! Theorems.  Each claim of the specification gets one theorem below (with a
witness instantiation when the statement carries hypotheses, and a concrete
counterexample where the claim as stated fails on the code). -/

/-- C2: for every signal whose stop loss equals its entry price,
calculate_position_size returns 0; and execute_trade with a non-positive
quantity returns None and issues no bracket order, so no position is created
and no broker side effect occurs. -/
theorem degenerateSizingIsNoOp (signal : TradingSignal) (cfg : StrategyConfig)
    (placeBracketOrder : BracketOrderCall → Option OrderResult) (quantity : ℤ)
    (hsl : signal.stopLoss = signal.entryPrice) (hq : quantity ≤ 0) :
    calculatePositionSize signal cfg = 0 ∧
    executeTrade placeBracketOrder signal quantity = (none, []) := by
  constructor
  · unfold calculatePositionSize
    rw [hsl]
    simp [pyAbs]
  · unfold executeTrade
    rw [if_pos hq]

/-- Witness for C2 at a concrete degenerate signal and zero quantity. -/
theorem degenerateSizingIsNoOpWitness :
    calculatePositionSize
      ⟨"ITC.NS", .FMCG, "SHORT", 100, 100, 98, 0.8, 1, 50, .fin 2⟩
      ⟨1000000, 2, 0.5, 40, 2, 1, 2, 0.7⟩ = 0 ∧
    executeTrade (fun c => some ⟨some c.symbol⟩)
      ⟨"ITC.NS", .FMCG, "SHORT", 100, 100, 98, 0.8, 1, 50, .fin 2⟩ 0 = (none, []) :=
  degenerateSizingIsNoOp _ _ _ _ rfl (by norm_num)

/-- C3: once the existing positions already hold at least two positions in a
sector, check_position_correlation rejects every further candidate in that
sector (the function does not depend on which strategy asks). -/
theorem sectorLimitRejectsThird (existing : List Position) (newSymbol : String)
    (newSector : Sector)
    (h : 2 ≤ (existing.filter (fun p => p.sector == newSector)).length) :
    checkPositionCorrelation existing newSymbol newSector = false := by
  unfold checkPositionCorrelation
  rw [if_pos h]

/-- Witness for C3: two IT positions already held, a third IT candidate with a
fresh symbol is rejected. -/
theorem sectorLimitRejectsThirdWitness :
    checkPositionCorrelation
      [⟨"TCS.NS", 3500, -10, 3550, 3400, .IT, some "o1", none⟩,
       ⟨"INFY.NS", 1500, -20, 1530, 1450, .IT, some "o2", none⟩]
      "WIPRO.NS" .IT = false :=
  sectorLimitRejectsThird _ _ _ (by decide)

/-- C4 (amended): with a positive day-start value, check_portfolio_risk
classifies a daily loss of at least portfolio_stop_loss percent as
STOP_LOSS_HIT requiring CLOSE_ALL_POSITIONS; when the stop-loss condition does
NOT hold and the daily gain reaches daily_profit_target percent it returns
PROFIT_TARGET_HIT requiring CONSIDER_CLOSING_POSITIONS; otherwise SAFE.  The
stop-loss branch takes precedence when both conditions hold. -/
theorem portfolioRiskClassification (cfg : MultiStrategyConfig) (dayStart current : ℚ)
    (h : 0 < dayStart) :
    ((current - dayStart) / dayStart * 100 ≤ -cfg.portfolioStopLoss →
      checkPortfolioRisk cfg dayStart current =
        ⟨"STOP_LOSS_HIT", ["CLOSE_ALL_POSITIONS"]⟩) ∧
    (¬ (current - dayStart) / dayStart * 100 ≤ -cfg.portfolioStopLoss →
      cfg.dailyProfitTarget ≤ (current - dayStart) / dayStart * 100 →
      checkPortfolioRisk cfg dayStart current =
        ⟨"PROFIT_TARGET_HIT", ["CONSIDER_CLOSING_POSITIONS"]⟩) ∧
    (¬ (current - dayStart) / dayStart * 100 ≤ -cfg.portfolioStopLoss →
      ¬ cfg.dailyProfitTarget ≤ (current - dayStart) / dayStart * 100 →
      checkPortfolioRisk cfg dayStart current = ⟨"SAFE", []⟩) := by
  have hns : ¬ dayStart ≤ 0 := not_le.mpr h
  unfold checkPortfolioRisk
  refine ⟨fun hsl => ?_, fun hnsl hpt => ?_, fun hnsl hnpt => ?_⟩
  · rw [if_neg hns, if_pos hsl]
  · rw [if_neg hns, if_neg hnsl, if_pos hpt]
  · rw [if_neg hns, if_neg hnsl, if_neg hnpt]

/-- Witness for C4 at the spec scenario: day start 1,000,000, current 940,000,
portfolio_stop_loss 5.0 — a 6 percent loss — yields STOP_LOSS_HIT with
CLOSE_ALL_POSITIONS. -/
theorem portfolioRiskClassificationWitness :
    checkPortfolioRisk ⟨5, 3, 2, 5, 3⟩ 1000000 940000 =
      ⟨"STOP_LOSS_HIT", ["CLOSE_ALL_POSITIONS"]⟩ :=
  (portfolioRiskClassification ⟨5, 3, 2, 5, 3⟩ 1000000 940000 (by norm_num)).1
    (by norm_num)

/-- Counterexample for C4 as stated: with portfolio_stop_loss 0 and
daily_profit_target 0 and an unchanged portfolio, the daily ratio (0) is at
least the profit target, yet the code returns STOP_LOSS_HIT, not the
PROFIT_TARGET_HIT the claim demands — the two conditions overlap and the
stop-loss branch wins. -/
theorem portfolioRiskProfitBranchCex :
    (0 : ℚ) < 100 ∧
    (⟨5, 3, 2, 0, 0⟩ : MultiStrategyConfig).dailyProfitTarget ≤
      ((100 : ℚ) - 100) / 100 * 100 ∧
    checkPortfolioRisk ⟨5, 3, 2, 0, 0⟩ 100 100 ≠
      ⟨"PROFIT_TARGET_HIT", ["CONSIDER_CLOSING_POSITIONS"]⟩ ∧
    checkPortfolioRisk ⟨5, 3, 2, 0, 0⟩ 100 100 =
      ⟨"STOP_LOSS_HIT", ["CLOSE_ALL_POSITIONS"]⟩ := by
  refine ⟨by norm_num, by norm_num, ?_, ?_⟩ <;> decide

/-- C10: whenever the per-strategy and total position-count limits are all
respected, should_allow_new_position still returns false as soon as
check_portfolio_risk reports a status other than SAFE, for every requesting
strategy name. -/
theorem riskStatusBlocksAdmission (cfg : MultiStrategyConfig) (dayStart current : ℚ)
    (strategyName : String) (currentPositions breakoutPositions : List (String × Position))
    (h1 : currentPositions.length + breakoutPositions.length < cfg.maxTotalPositions)
    (h2 : currentPositions.length < cfg.maxGapUpPositions)
    (h3 : breakoutPositions.length < cfg.maxBreakoutPositions)
    (h4 : (checkPortfolioRisk cfg dayStart current).status ≠ "SAFE") :
    shouldAllowNewPosition cfg dayStart current strategyName
      currentPositions breakoutPositions = false := by
  unfold shouldAllowNewPosition
  rw [if_neg (by omega), if_neg (fun hc => absurd hc.2 (by omega)),
    if_neg (fun hc => absurd hc.2 (by omega)), if_pos h4]

/-- Witness for C10: empty position maps, limits 5/3/2, portfolio down 10
percent with stop loss 5 — admission is denied for the breakout strategy. -/
theorem riskStatusBlocksAdmissionWitness :
    shouldAllowNewPosition ⟨5, 3, 2, 5, 3⟩ 100 90 "breakout" [] [] = false :=
  riskStatusBlocksAdmission ⟨5, 3, 2, 5, 3⟩ 100 90 "breakout" [] []
    (by norm_num) (by norm_num) (by norm_num) (by decide)

/-- Order book used in the C5 counterexample: both sides non-empty but every
level carries zero volume. -/
def zeroVolumeBook : EnhOrderBookSnapshot :=
  ⟨[⟨99, 0, 1, "BID"⟩], [⟨101, 0, 1, "ASK"⟩], 2, 100⟩

/-- C5 (amended): both imbalance computations are total; an order book with an
empty bid or ask list yields the neutral ratio 1.0 in both.  With both sides
non-empty and zero summed ask volume over the top levels,
calculate_bid_ask_imbalance returns the infinite sentinel unconditionally,
while analyze_order_book_imbalance returns the infinite sentinel only when the
summed bid volume is nonzero and returns the neutral 1.0 when both summed
volumes are zero. -/
theorem imbalanceDegenerateCases :
    (∀ ob : OrderBookSnapshot, ob.bids = [] ∨ ob.asks = [] →
      calculateBidAskImbalance ob = .fin 1) ∧
    (∀ ob : OrderBookSnapshot, ob.bids ≠ [] → ob.asks ≠ [] →
      ((ob.asks.take 3).map (fun l => l.quantity)).sum = 0 →
      calculateBidAskImbalance ob = .inf) ∧
    (∀ (ob : EnhOrderBookSnapshot) (levels : ℕ), ob.bids = [] ∨ ob.asks = [] →
      (analyzeOrderBookImbalance ob levels).ratioVal = .fin 1) ∧
    (∀ (ob : EnhOrderBookSnapshot) (levels : ℕ), ob.bids ≠ [] → ob.asks ≠ [] →
      ((ob.asks.take levels).map (fun l => l.quantity)).sum = 0 →
      ((ob.bids.take levels).map (fun l => l.quantity)).sum ≠ 0 →
      (analyzeOrderBookImbalance ob levels).ratioVal = .inf) ∧
    (∀ (ob : EnhOrderBookSnapshot) (levels : ℕ), ob.bids ≠ [] → ob.asks ≠ [] →
      ((ob.asks.take levels).map (fun l => l.quantity)).sum = 0 →
      ((ob.bids.take levels).map (fun l => l.quantity)).sum = 0 →
      (analyzeOrderBookImbalance ob levels).ratioVal = .fin 1) := by
  refine ⟨fun ob hdeg => ?_, fun ob hb ha hask => ?_,
    fun ob levels hdeg => ?_, fun ob levels hb ha hask hbid => ?_,
    fun ob levels hb ha hask hbid => ?_⟩
  · unfold calculateBidAskImbalance
    rw [if_pos]
    rcases hdeg with h | h <;> simp [h]
  · unfold calculateBidAskImbalance
    rw [if_neg (by simp [List.isEmpty_iff, hb, ha]), if_pos hask]
  · unfold analyzeOrderBookImbalance
    rw [if_pos]
    rcases hdeg with h | h <;> simp [h]
  · unfold analyzeOrderBookImbalance
    rw [if_neg (by simp [List.isEmpty_iff, hb, ha]), if_neg (by omega)]
    simp only [hask, lt_self_iff_false, if_false]
  · unfold analyzeOrderBookImbalance
    rw [if_neg (by simp [List.isEmpty_iff, hb, ha]), if_pos (by omega)]

/-- Counterexample for C5 as stated: a book with one zero-volume level on each
side is non-empty on both sides and has zero summed ask volume, yet
analyze_order_book_imbalance returns the neutral 1.0 rather than the promised
infinite sentinel. -/
theorem enhancedImbalanceZeroVolumeCex :
    zeroVolumeBook.bids ≠ [] ∧ zeroVolumeBook.asks ≠ [] ∧
    ((zeroVolumeBook.asks.take 3).map (fun l => l.quantity)).sum = 0 ∧
    (analyzeOrderBookImbalance zeroVolumeBook 3).ratioVal = .fin 1 ∧
    PyFloat.fin 1 ≠ PyFloat.inf := by
  refine ⟨by decide, by decide, by decide, by decide, by decide⟩

/-- Membership in an insertion step of the stable sort. -/
theorem mem_insertByConfidence {x s : TradingSignal} {l : List TradingSignal} :
    x ∈ insertByConfidence s l ↔ x = s ∨ x ∈ l := by
  induction l with
  | nil => simp [insertByConfidence]
  | cons t ts ih =>
    unfold insertByConfidence
    by_cases h : t.confidence < s.confidence
    · rw [if_pos h]
      simp [List.mem_cons]
    · rw [if_neg h]
      simp [List.mem_cons, ih]
      tauto

/-- Insertion preserves the descending-confidence invariant. -/
theorem pairwise_insertByConfidence {s : TradingSignal} {l : List TradingSignal}
    (h : l.Pairwise ConfDesc) : (insertByConfidence s l).Pairwise ConfDesc := by
  induction l with
  | nil => simp [insertByConfidence, ConfDesc]
  | cons t ts ih =>
    rw [List.pairwise_cons] at h
    obtain ⟨ht, hts⟩ := h
    unfold insertByConfidence
    by_cases hc : t.confidence < s.confidence
    · rw [if_pos hc]
      refine List.Pairwise.cons ?_ (List.Pairwise.cons ht hts)
      intro b hb
      rcases List.mem_cons.mp hb with rfl | hb
      · exact le_of_lt hc
      · exact le_trans (ht b hb) (le_of_lt hc)
    · rw [if_neg hc]
      refine List.Pairwise.cons ?_ (ih hts)
      intro b hb
      rcases mem_insertByConfidence.mp hb with rfl | hb
      · exact not_lt.mp hc
      · exact ht b hb

/-- The insertion fold keeps the invariant from any sorted accumulator. -/
theorem pairwise_sortFold (l : List TradingSignal) :
    ∀ acc : List TradingSignal, acc.Pairwise ConfDesc →
      (l.foldl (fun a s => insertByConfidence s a) acc).Pairwise ConfDesc := by
  induction l with
  | nil => exact fun acc h => h
  | cons s ts ih => exact fun acc h => ih _ (pairwise_insertByConfidence h)

/-- The stable sort output is descending in confidence. -/
theorem sortByConfidenceDesc_pairwise (l : List TradingSignal) :
    (sortByConfidenceDesc l).Pairwise ConfDesc :=
  pairwise_sortFold l [] List.Pairwise.nil

/-- Membership through the insertion fold. -/
theorem mem_sortFold (l : List TradingSignal) :
    ∀ (acc : List TradingSignal) (x : TradingSignal),
      x ∈ l.foldl (fun a s => insertByConfidence s a) acc ↔ x ∈ acc ∨ x ∈ l := by
  induction l with
  | nil => simp
  | cons s ts ih =>
    intro acc x
    rw [List.foldl_cons, ih, mem_insertByConfidence, List.mem_cons]
    tauto

/-- The stable sort is a permutation membership-wise. -/
theorem mem_sortByConfidenceDesc {x : TradingSignal} {l : List TradingSignal} :
    x ∈ sortByConfidenceDesc l ↔ x ∈ l := by
  unfold sortByConfidenceDesc
  rw [mem_sortFold]
  simp

/-- C9 (amended): each of the three generators returns its signal list sorted
by confidence descending, so the output is a deterministic function of the
inputs; ties keep the generator's fixed universe iteration order (the stable
sort), not ascending symbol lexical order. -/
theorem generatorsSortedByConfidence :
    (∀ (cfg : StrategyConfig) (inp : GapShortInputs),
      (generateSignals cfg inp).Pairwise ConfDesc) ∧
    (∀ (sCfg : StrategyConfig) (bCfg : BreakoutConfig) (inp : BreakoutInputs),
      (generateBreakoutSignals sCfg bCfg inp).Pairwise ConfDesc) ∧
    (∀ (cfg : ScalpingConfig) (marketData : String → Option MarketData)
      (orderBookOf : String → Option OrderBookSnapshot)
      (recentSignals : List (String × ℚ)) (now : ℚ),
      (generateScalpingSignals cfg marketData orderBookOf recentSignals now).1.Pairwise
        ConfDesc) := by
  refine ⟨fun cfg inp => ?_, fun sCfg bCfg inp => ?_,
    fun cfg marketData orderBookOf recentSignals now => ?_⟩
  · unfold generateSignals
    split
    · exact List.Pairwise.nil
    · exact sortByConfidenceDesc_pairwise _
  · unfold generateBreakoutSignals
    exact sortByConfidenceDesc_pairwise _
  · unfold generateScalpingSignals
    dsimp only
    exact sortByConfidenceDesc_pairwise _

/-- Ordering the spec sentence demands of the output sequence, written from
the spec's words only (for refutation): confidence strictly descending or a
tie broken by ascending symbol lexical order. -/
def SpecTieOrder (a b : TradingSignal) : Prop :=
  b.confidence < a.confidence ∨ (a.confidence = b.confidence ∧ a.symbol < b.symbol)

/-- Market data shared by the two tied symbols in the C9 counterexample. -/
def tieMarketData : MarketData := ⟨"", 100, 102, 102, 99, 1000, 100⟩

/-- Gap-short inputs for the C9 counterexample: NESTLEIND.NS and COLPAL.NS
(both FMCG) receive identical quotes and identical analysis figures, so their
signals tie at confidence 31/50. -/
def tieInputs : GapShortInputs :=
  ⟨1, fun s => if s = "NESTLEIND.NS" ∨ s = "COLPAL.NS" then some tieMarketData else none,
   fun _ => 60, fun _ => 500, 6.5⟩

/-- Strategy config for the C9 counterexample. -/
def tieCfg : StrategyConfig := ⟨1000000, 1, 0.5, 30, 1, 1, 2, 0⟩

/-- The signal emitted for each tied symbol in the C9 counterexample. -/
def tieSignal (symbol : String) : TradingSignal :=
  ⟨symbol, .FMCG, "SHORT", 100, 101, 98, 31/50, 2, 60, .fin 2⟩

/-- Counterexample for C9 as stated: two signals tie at confidence 31/50 and
come out in universe order NESTLEIND.NS before COLPAL.NS, which is not
ascending symbol lexical order — the output violates the spec's tie-break. -/
theorem gapShortTieOrderCex :
    generateSignals tieCfg tieInputs = [tieSignal "NESTLEIND.NS", tieSignal "COLPAL.NS"] ∧
    ¬ (generateSignals tieCfg tieInputs).Pairwise SpecTieOrder := by
  have h : generateSignals tieCfg tieInputs =
      [tieSignal "NESTLEIND.NS", tieSignal "COLPAL.NS"] := by
    set_option maxHeartbeats 2000000 in decide
  refine ⟨h, fun hpair => ?_⟩
  rw [h, List.pairwise_cons] at hpair
  have hrel := hpair.1 (tieSignal "COLPAL.NS") (by simp)
  rcases hrel with hlt | ⟨_, hstr⟩
  · exact absurd hlt (by norm_num [tieSignal])
  · have hs : ("NESTLEIND.NS" : String) < "COLPAL.NS" := by simpa [tieSignal] using hstr
    have hns : ¬ (("NESTLEIND.NS" : String) < "COLPAL.NS") := by
      simp [String.lt_iff]
      decide
    exact hns hs

/-- Market data used in the C8 counterexample (a 10 percent symbol gap). -/
def zeroGapMarketData : MarketData := ⟨"", 100, 110, 111, 99, 3000, 100⟩

/-- Gap-short inputs with index gap percentage exactly 0 but per-symbol data
that passes every per-symbol criterion. -/
def zeroGapInputs : GapShortInputs :=
  ⟨0, fun s => if s = "NESTLEIND.NS" then some zeroGapMarketData else none,
   fun _ => 200, fun _ => 1000, 6.5⟩

/-- Strategy config used in the C8 counterexample. -/
def zeroGapCfg : StrategyConfig := ⟨1000000, 1, 0.5, 40, 2, 1, 2, 0⟩

/-- C8 (amended): the gap-short generator returns the empty sequence for
every index gap percentage ≤ 0 — including exactly 0 — without reaching the
per-symbol evaluation, and for a strictly positive index gap it returns
exactly the sorted per-symbol scan. -/
theorem gapGateStrict (cfg : StrategyConfig) (inp : GapShortInputs) :
    (inp.indexGapPercentage ≤ 0 → generateSignals cfg inp = []) ∧
    (0 < inp.indexGapPercentage →
      generateSignals cfg inp = sortByConfidenceDesc (gapShortScan cfg inp)) := by
  constructor
  · intro h
    unfold generateSignals
    rw [if_pos h]
  · intro h
    unfold generateSignals
    rw [if_neg (not_le.mpr h)]

/-- Witness for C8: the gate at a negative index gap (empty result) and at a
positive index gap (the sorted scan) on concrete inputs. -/
theorem gapGateStrictWitness :
    generateSignals zeroGapCfg ⟨-1, zeroGapInputs.marketData, zeroGapInputs.sellingPressureRaw,
      zeroGapInputs.avgVolume20d, zeroGapInputs.hoursElapsedRaw⟩ = [] ∧
    generateSignals zeroGapCfg ⟨2, zeroGapInputs.marketData, zeroGapInputs.sellingPressureRaw,
      zeroGapInputs.avgVolume20d, zeroGapInputs.hoursElapsedRaw⟩ =
      sortByConfidenceDesc (gapShortScan zeroGapCfg ⟨2, zeroGapInputs.marketData,
        zeroGapInputs.sellingPressureRaw, zeroGapInputs.avgVolume20d,
        zeroGapInputs.hoursElapsedRaw⟩) :=
  ⟨(gapGateStrict _ _).1 (by norm_num), (gapGateStrict _ _).2 (by norm_num)⟩

/-- Counterexample for C8 as stated: at index gap exactly 0 — which the claim
says should proceed to per-symbol evaluation — the generator returns the empty
sequence even though the per-symbol evaluation produces a NESTLEIND.NS signal. -/
theorem gapGateZeroCex :
    (0 : ℚ) ≤ zeroGapInputs.indexGapPercentage ∧
    generateSignals zeroGapCfg zeroGapInputs = [] ∧
    (gapShortScan zeroGapCfg zeroGapInputs).map (fun s => s.symbol) = ["NESTLEIND.NS"] ∧
    sortByConfidenceDesc (gapShortScan zeroGapCfg zeroGapInputs) ≠ [] := by
  refine ⟨by norm_num [zeroGapInputs], by decide, by decide, by decide⟩

/-- Witness for C5: each degenerate case at a concrete order book. -/
theorem imbalanceDegenerateCasesWitness :
    calculateBidAskImbalance ⟨"X", [], [⟨101, 5, 1, "ASK"⟩], 0, 0⟩ = .fin 1 ∧
    calculateBidAskImbalance ⟨"X", [⟨99, 5, 1, "BID"⟩], [⟨101, 0, 1, "ASK"⟩], 0, 0⟩ = .inf ∧
    (analyzeOrderBookImbalance ⟨[], [⟨101, 5, 1, "ASK"⟩], 0, 0⟩ 3).ratioVal = .fin 1 ∧
    (analyzeOrderBookImbalance ⟨[⟨99, 5, 1, "BID"⟩], [⟨101, 0, 1, "ASK"⟩], 2, 100⟩ 3).ratioVal =
      .inf ∧
    (analyzeOrderBookImbalance zeroVolumeBook 3).ratioVal = .fin 1 :=
  ⟨imbalanceDegenerateCases.1 _ (Or.inl rfl),
   imbalanceDegenerateCases.2.1 _ (by decide) (by decide) (by decide),
   imbalanceDegenerateCases.2.2.1 _ 3 (Or.inl rfl),
   imbalanceDegenerateCases.2.2.2.1 _ 3 (by decide) (by decide) (by decide) (by decide),
   imbalanceDegenerateCases.2.2.2.2 _ 3 (by decide) (by decide) (by decide) (by decide)⟩

/-- pyMin agrees with the lattice min on ℚ. -/
theorem pyMin_eq (a b : ℚ) : pyMin a b = min a b := by rw [pyMin, min_def]

/-- pyMax agrees with the lattice max on ℚ. -/
theorem pyMax_eq (a b : ℚ) : pyMax a b = max a b := by rw [pyMax, max_def]

/-- pyMin of nonnegatives is nonnegative. -/
theorem pyMin_nonneg {a b : ℚ} (ha : 0 ≤ a) (hb : 0 ≤ b) : 0 ≤ pyMin a b := by
  rw [pyMin_eq]
  exact le_min ha hb

/-- pyMin is at most its right argument. -/
theorem pyMin_le_right (a b : ℚ) : pyMin a b ≤ b := by
  rw [pyMin_eq]
  exact min_le_right _ _

/-- The selling-pressure clamp lands in [0, 100]. -/
theorem sellingPressureScore_bounds (raw : ℚ) :
    0 ≤ calculateSellingPressureScore raw ∧ calculateSellingPressureScore raw ≤ 100 := by
  unfold calculateSellingPressureScore
  rw [pyMin_eq, pyMax_eq]
  exact ⟨le_min (le_max_right _ _) (by norm_num), min_le_right _ _⟩

/-- The volume ratio is nonnegative whenever the 20-day average volume is. -/
theorem volumeRatio_nonneg (volume : ℕ) (hoursElapsedRaw avgVolume : ℚ)
    (havg : 0 ≤ avgVolume) : 0 ≤ calculateVolumeRatio volume hoursElapsedRaw avgVolume := by
  simp only [calculateVolumeRatio, pyMax_eq]
  have hpos : (0 : ℚ) < max hoursElapsedRaw 0.5 :=
    lt_of_lt_of_le (by norm_num) (le_max_right _ _)
  split_ifs with h
  · exact div_nonneg
      (mul_nonneg (Nat.cast_nonneg _) (le_of_lt (div_pos (by norm_num) hpos))) (le_of_lt h)
  · norm_num

/-- Every gap-short sector weight lies in [0, 1]. -/
theorem sectorWeightsGap_bounds (s : Sector) :
    0 ≤ sectorWeightsGap s ∧ sectorWeightsGap s ≤ 1 := by
  cases s <;> norm_num [sectorWeightsGap]

/-- Every breakout sector weight lies in [0, 1]. -/
theorem sectorWeightsBreakout_bounds (s : Sector) :
    0 ≤ sectorWeightsBreakout s ∧ sectorWeightsBreakout s ≤ 1 := by
  cases s <;> norm_num [sectorWeightsBreakout]

/-- The momentum normalization lands in [0, 100]. -/
theorem normalizeMomentum_bounds (raw : ℚ) :
    0 ≤ normalizeMomentum raw ∧ normalizeMomentum raw ≤ 100 := by
  unfold normalizeMomentum
  rw [pyMin_eq, pyMax_eq]
  exact ⟨le_min (le_max_right _ _) (by norm_num), min_le_right _ _⟩

/-- A signal emitted by the gap-short per-symbol evaluation has confidence in
[0, 1], provided the symbol's 20-day average volume is nonnegative and the
signal's gap percentage lies in [0, 5]. -/
theorem gapShortScanSymbol_confidence {cfg : StrategyConfig} {inp : GapShortInputs}
    {symbol : String} {sector : Sector} {s : TradingSignal}
    (havg : 0 ≤ inp.avgVolume20d symbol)
    (h : gapShortScanSymbol cfg inp symbol sector = some s)
    (hg0 : 0 ≤ s.gapPercentage) (hg5 : s.gapPercentage ≤ 5) :
    0 ≤ s.confidence ∧ s.confidence ≤ 1 := by
  unfold gapShortScanSymbol at h
  cases hm : inp.marketData symbol with
  | none => rw [hm] at h; cases h
  | some md =>
    rw [hm] at h
    dsimp only at h
    split_ifs at h with h1 h2 h3
    have hs := Option.some_inj.mp h
    have hconf : s.confidence =
        calculateSellingPressureScore (inp.sellingPressureRaw symbol) / 100 * 0.4 +
        pyMin (calculateVolumeRatio md.volume inp.hoursElapsedRaw (inp.avgVolume20d symbol) / 3)
          1 * 0.3 +
        (md.openPrice - md.previousClose) / md.previousClose * 100 / 5 * 0.2 +
        sectorWeightsGap sector * 0.1 := by rw [← hs]
    have hgap : s.gapPercentage =
        (md.openPrice - md.previousClose) / md.previousClose * 100 := by rw [← hs]
    rw [hgap] at hg0 hg5
    rw [hconf]
    obtain ⟨hsp0, hsp1⟩ := sellingPressureScore_bounds (inp.sellingPressureRaw symbol)
    have hvr := volumeRatio_nonneg md.volume inp.hoursElapsedRaw (inp.avgVolume20d symbol) havg
    obtain ⟨hpref0, hpref1⟩ := sectorWeightsGap_bounds sector
    have hm1 : 0 ≤ pyMin
        (calculateVolumeRatio md.volume inp.hoursElapsedRaw (inp.avgVolume20d symbol) / 3) 1 :=
      pyMin_nonneg (div_nonneg hvr (by norm_num)) (by norm_num)
    have hm2 : pyMin
        (calculateVolumeRatio md.volume inp.hoursElapsedRaw (inp.avgVolume20d symbol) / 3) 1 ≤ 1 :=
      pyMin_le_right _ _
    constructor <;> linarith

/-- The breakout-strength score lies in [0, 100] whenever the simulated range
size is nonnegative. -/
theorem breakoutStrength_bounds (md : MarketData) (r : OpeningRange)
    (hr : 0 ≤ r.rangeSize) :
    0 ≤ calculateBreakoutStrength md r ∧ calculateBreakoutStrength md r ≤ 100 := by
  simp only [calculateBreakoutStrength]
  by_cases h1 : md.currentPrice - r.high ≤ 0
  · rw [if_pos h1]
    norm_num
  · rw [if_neg h1]
    by_cases h2 : r.rangeSize = 0
    · rw [if_pos h2]
      norm_num
    · rw [if_neg h2]
      have hd : 0 < md.currentPrice - r.high := not_le.mp h1
      have hrz : 0 < r.rangeSize := lt_of_le_of_ne hr (Ne.symm h2)
      have hstrength : 0 ≤ (md.currentPrice - r.high) / r.rangeSize * 100 :=
        mul_nonneg (div_nonneg (le_of_lt hd) (le_of_lt hrz)) (by norm_num)
      have hvs : 0 ≤ (if 0 < r.volume then pyMin ((md.volume : ℚ) / (r.volume : ℚ)) 3 else 1) := by
        split_ifs with h3
        · exact pyMin_nonneg (div_nonneg (Nat.cast_nonneg _) (Nat.cast_nonneg _)) (by norm_num)
        · norm_num
      exact ⟨pyMin_nonneg (mul_nonneg (mul_nonneg hstrength hvs) (by norm_num)) (by norm_num),
        pyMin_le_right _ _⟩

/-- Bound on the breakout confidence formula from bounds on its terms. -/
theorem breakoutConf_bounds (bs vrmin bp mom pref : ℚ)
    (hbs0 : 0 ≤ bs) (hbs1 : bs ≤ 100) (hm1 : 0 ≤ vrmin) (hm2 : vrmin ≤ 1)
    (hbp0 : 0 ≤ bp) (hbp1 : bp ≤ 10) (hmom0 : 0 ≤ mom) (hmom1 : mom ≤ 100)
    (hpref0 : 0 ≤ pref) (hpref1 : pref ≤ 1) :
    0 ≤ bs / 100 * 0.3 + vrmin * 0.25 + bp / 10 * 0.2 + mom / 100 * 0.15 + pref * 0.1 ∧
    bs / 100 * 0.3 + vrmin * 0.25 + bp / 10 * 0.2 + mom / 100 * 0.15 + pref * 0.1 ≤ 1 := by
  constructor <;> linarith

/-- A signal emitted by the breakout per-symbol evaluation has confidence in
[0, 1], provided the symbol's market data has a nonnegative open price, its
20-day average volume is nonnegative, and the signal's breakout percentage
(stored in the gap_percentage field) is at most 10. -/
theorem breakoutScanSymbol_confidence {sCfg : StrategyConfig} {bCfg : BreakoutConfig}
    {inp : BreakoutInputs} {symbol : String} {sector : Sector} {s : TradingSignal}
    (havg : 0 ≤ inp.avgVolume20d symbol)
    (hopen : ∀ md, inp.marketData symbol = some md → 0 ≤ md.openPrice)
    (h : breakoutScanSymbol sCfg bCfg inp symbol sector = some s)
    (hg10 : s.gapPercentage ≤ 10) :
    0 ≤ s.confidence ∧ s.confidence ≤ 1 := by
  unfold breakoutScanSymbol at h
  cases hm : inp.marketData symbol with
  | none => rw [hm] at h; cases h
  | some md =>
    rw [hm] at h
    have hmd : 0 ≤ md.openPrice := hopen md hm
    rw [calculateOpeningRange, hm] at h
    simp only [Option.map_some'] at h
    split_ifs at h with h1 h2 h3 h4 h5 h6 h7
    · have hs := Option.some_inj.mp h
      have hconf : s.confidence =
          calculateBreakoutStrength md ⟨md.openPrice * 1.01, md.openPrice * 0.99,
              md.openPrice * 0.02, md.volume, md.openPrice⟩ / 100 * 0.3 +
          pyMin ((md.volume : ℚ) / inp.avgVolume20d symbol / 3) 1 * 0.25 +
          (md.currentPrice - md.openPrice * 1.01) / (md.openPrice * 1.01) * 100 / 10 * 0.2 +
          normalizeMomentum (inp.momentumRaw symbol) / 100 * 0.15 +
          sectorWeightsBreakout sector * 0.1 := by rw [← hs]
      have hgap : s.gapPercentage =
          (md.currentPrice - md.openPrice * 1.01) / (md.openPrice * 1.01) * 100 := by rw [← hs]
      rw [hgap] at hg10
      rw [hconf]
      have hhigh : 0 < md.openPrice * 1.01 :=
        lt_of_le_of_ne (mul_nonneg hmd (by norm_num)) (Ne.symm h2)
      obtain ⟨hbs0, hbs1⟩ := breakoutStrength_bounds md
        ⟨md.openPrice * 1.01, md.openPrice * 0.99, md.openPrice * 0.02, md.volume, md.openPrice⟩
        (mul_nonneg hmd (by norm_num))
      obtain ⟨hmom0, hmom1⟩ := normalizeMomentum_bounds (inp.momentumRaw symbol)
      obtain ⟨hpref0, hpref1⟩ := sectorWeightsBreakout_bounds sector
      exact breakoutConf_bounds _ _ _ _ _ hbs0 hbs1
        (pyMin_nonneg (div_nonneg (div_nonneg (Nat.cast_nonneg _) havg) (by norm_num))
          (by norm_num))
        (pyMin_le_right _ _)
        (le_of_lt (mul_pos (div_pos (by linarith [not_le.mp h1]) hhigh) (by norm_num))) hg10
        hmom0 hmom1 hpref0 hpref1
    · have hs := Option.some_inj.mp h
      have hconf : s.confidence =
          calculateBreakoutStrength md ⟨md.openPrice * 1.01, md.openPrice * 0.99,
              md.openPrice * 0.02, md.volume, md.openPrice⟩ / 100 * 0.3 +
          pyMin ((1 : ℚ) / 3) 1 * 0.25 +
          (md.currentPrice - md.openPrice * 1.01) / (md.openPrice * 1.01) * 100 / 10 * 0.2 +
          normalizeMomentum (inp.momentumRaw symbol) / 100 * 0.15 +
          sectorWeightsBreakout sector * 0.1 := by rw [← hs]
      have hgap : s.gapPercentage =
          (md.currentPrice - md.openPrice * 1.01) / (md.openPrice * 1.01) * 100 := by rw [← hs]
      rw [hgap] at hg10
      rw [hconf]
      have hhigh : 0 < md.openPrice * 1.01 :=
        lt_of_le_of_ne (mul_nonneg hmd (by norm_num)) (Ne.symm h2)
      obtain ⟨hbs0, hbs1⟩ := breakoutStrength_bounds md
        ⟨md.openPrice * 1.01, md.openPrice * 0.99, md.openPrice * 0.02, md.volume, md.openPrice⟩
        (mul_nonneg hmd (by norm_num))
      obtain ⟨hmom0, hmom1⟩ := normalizeMomentum_bounds (inp.momentumRaw symbol)
      obtain ⟨hpref0, hpref1⟩ := sectorWeightsBreakout_bounds sector
      exact breakoutConf_bounds _ _ _ _ _ hbs0 hbs1
        (pyMin_nonneg (by norm_num) (by norm_num)) (pyMin_le_right _ _)
        (le_of_lt (mul_pos (div_pos (by linarith [not_le.mp h1]) hhigh) (by norm_num))) hg10
        hmom0 hmom1 hpref0 hpref1

/-- The book imbalance, when finite, is nonnegative. -/
theorem calculateBidAskImbalance_nonneg (ob : OrderBookSnapshot) :
    ∀ q, calculateBidAskImbalance ob = .fin q → 0 ≤ q := by
  intro q h
  simp only [calculateBidAskImbalance] at h
  split_ifs at h <;>
    first
      | exact PyFloat.noConfusion h
      | (rw [PyFloat.fin.injEq] at h; rw [← h];
         first
           | exact div_nonneg (Nat.cast_nonneg _) (Nat.cast_nonneg _)
           | norm_num)

/-- The depth score lies in [0, 0.25]. -/
theorem scalpDepthScore_bounds (ob : OrderBookSnapshot) :
    0 ≤ scalpDepthScore ob ∧ scalpDepthScore ob ≤ 0.25 := by
  unfold scalpDepthScore
  have h0 : 0 ≤ pyMin ((ob.bids.length : ℚ) + (ob.asks.length : ℚ)) 10 :=
    pyMin_nonneg (by positivity) (by norm_num)
  have h1 : pyMin ((ob.bids.length : ℚ) + (ob.asks.length : ℚ)) 10 ≤ 10 :=
    pyMin_le_right _ _
  constructor <;> nlinarith

/-- The imbalance score, when defined, lies in [0, 0.35] for a nonnegative
ratio. -/
theorem scalpImbalanceScore_bounds {ratioVal : PyFloat} {cfg : ScalpingConfig} {i : ℚ}
    (hnn : ∀ q, ratioVal = .fin q → 0 ≤ q)
    (h : scalpImbalanceScore ratioVal cfg = some i) : 0 ≤ i ∧ i ≤ 0.35 := by
  cases ratioVal with
  | inf =>
    unfold scalpImbalanceScore at h
    simp only [PyFloat.geQ, PyFloat.leQ, if_true, Bool.false_eq_true, if_false] at h
    rw [Option.some_inj] at h
    rw [← h]
    norm_num
  | fin q =>
    have hq : 0 ≤ q := hnn q rfl
    unfold scalpImbalanceScore at h
    dsimp only at h
    split_ifs at h with h1 h2 h3 h4
    · rw [Option.some_inj] at h
      rw [← h]
      have ha : 0 ≤ pyMin (q / 5) 1 := pyMin_nonneg (by positivity) (by norm_num)
      have hb : pyMin (q / 5) 1 ≤ 1 := pyMin_le_right _ _
      constructor <;> nlinarith
    · rw [Option.some_inj] at h
      rw [← h]
      have hqpos : 0 < q := lt_of_le_of_ne hq (Ne.symm h4)
      have ha : 0 ≤ pyMin ((1 / q) / 5) 1 := pyMin_nonneg (by positivity) (by norm_num)
      have hb : pyMin ((1 / q) / 5) 1 ≤ 1 := pyMin_le_right _ _
      constructor <;> nlinarith
    · rw [Option.some_inj] at h
      rw [← h]
      norm_num

/-- The best-level volume score, when defined, lies in [0, 0.25] for a
positive min_volume_at_level. -/
theorem scalpVolumeScore_bounds {ob : OrderBookSnapshot} {cfg : ScalpingConfig} {v : ℚ}
    (hvol : 0 < cfg.minVolumeAtLevel)
    (h : scalpVolumeScore ob cfg = some v) : 0 ≤ v ∧ v ≤ 0.25 := by
  unfold scalpVolumeScore at h
  rw [if_neg (by omega)] at h
  rw [Option.some_inj] at h
  rw [← h]
  have hden : (0 : ℚ) < (cfg.minVolumeAtLevel : ℚ) * 2 := by
    have : (0 : ℚ) < (cfg.minVolumeAtLevel : ℚ) := by exact_mod_cast hvol
    linarith
  have ha : 0 ≤ pyMin ((((match ob.bids with | [] => 0 | l :: _ => l.quantity) +
      (match ob.asks with | [] => 0 | l :: _ => l.quantity) : ℕ) : ℚ) /
      ((cfg.minVolumeAtLevel : ℚ) * 2)) 1 :=
    pyMin_nonneg (div_nonneg (Nat.cast_nonneg _) (le_of_lt hden)) (by norm_num)
  have hb : pyMin ((((match ob.bids with | [] => 0 | l :: _ => l.quantity) +
      (match ob.asks with | [] => 0 | l :: _ => l.quantity) : ℕ) : ℚ) /
      ((cfg.minVolumeAtLevel : ℚ) * 2)) 1 ≤ 1 := pyMin_le_right _ _
  constructor <;> nlinarith

/-- The proximity score, when defined, is 0 or 0.15. -/
theorem scalpProximityScore_bounds {support resistance : List ℚ} {cp p : ℚ}
    (h : scalpProximityScore support resistance cp = some p) : 0 ≤ p ∧ p ≤ 0.15 := by
  unfold scalpProximityScore at h
  split_ifs at h with h1 h2 h3
  · rw [Option.some_inj] at h
    rw [← h]
    norm_num
  · rw [Option.some_inj] at h
    rw [← h]
    norm_num
  · rw [Option.some_inj] at h
    rw [← h]
    norm_num

/-- The scalping confidence, when defined, lies in [0, 1] for a nonnegative
imbalance ratio and a positive min_volume_at_level. -/
theorem calculateScalpingConfidence_bounds {ob : OrderBookSnapshot} {ratioVal : PyFloat}
    {support resistance : List ℚ} {cp : ℚ} {cfg : ScalpingConfig} {c : ℚ}
    (hnn : ∀ q, ratioVal = .fin q → 0 ≤ q) (hvol : 0 < cfg.minVolumeAtLevel)
    (h : calculateScalpingConfidence ob ratioVal support resistance cp cfg = some c) :
    0 ≤ c ∧ c ≤ 1 := by
  unfold calculateScalpingConfidence at h
  cases hI : scalpImbalanceScore ratioVal cfg with
  | none => rw [hI] at h; cases h
  | some i =>
    rw [hI] at h
    cases hV : scalpVolumeScore ob cfg with
    | none => rw [hV] at h; cases h
    | some v =>
      rw [hV] at h
      cases hP : scalpProximityScore support resistance cp with
      | none => rw [hP] at h; cases h
      | some p =>
        rw [hP] at h
        rw [Option.some_inj] at h
        rw [← h]
        obtain ⟨hd0, hd1⟩ := scalpDepthScore_bounds ob
        obtain ⟨hi0, hi1⟩ := scalpImbalanceScore_bounds hnn hI
        obtain ⟨hv0, hv1⟩ := scalpVolumeScore_bounds hvol hV
        obtain ⟨hp0, hp1⟩ := scalpProximityScore_bounds hP
        exact ⟨pyMin_nonneg (by linarith) (by norm_num), pyMin_le_right _ _⟩

/-- Inversion of _analyze_scalping_opportunity: an emitted signal carries the
loop symbol and a confidence produced by _calculate_scalping_confidence on the
same book, ratio and levels. -/
theorem analyzeScalpingOpportunity_inv {symbol : String} {sector : Sector}
    {md : MarketData} {ob : OrderBookSnapshot} {cfg : ScalpingConfig} {s : TradingSignal}
    (h : analyzeScalpingOpportunity symbol sector md ob cfg = some s) :
    s.symbol = symbol ∧
    calculateScalpingConfidence ob (calculateBidAskImbalance ob)
      (identifySupportResistanceLevels ob cfg).1 (identifySupportResistanceLevels ob cfg).2
      md.currentPrice cfg = some s.confidence := by
  simp only [analyzeScalpingOpportunity] at h
  cases hC : scalpChooseSide (calculateBidAskImbalance ob) md.currentPrice
      (identifySupportResistanceLevels ob cfg).1
      (identifySupportResistanceLevels ob cfg).2 cfg with
  | none => rw [hC] at h; cases h
  | some o =>
    rw [hC] at h
    cases o with
    | none => cases h
    | some pair =>
      obtain ⟨signalTypeVal, side⟩ := pair
      dsimp only at h
      cases hConf : calculateScalpingConfidence ob (calculateBidAskImbalance ob)
          (identifySupportResistanceLevels ob cfg).1
          (identifySupportResistanceLevels ob cfg).2 md.currentPrice cfg with
      | none => rw [hConf] at h; cases h
      | some confidence =>
        rw [hConf] at h
        rw [Option.some_inj] at h
        have hsym : s.symbol = symbol := by rw [← h]
        have hc : s.confidence = confidence := by rw [← h]
        rw [hc]
        exact ⟨hsym, rfl⟩

/-- Characterization of one scalping loop iteration: either the accumulator is
unchanged, or exactly one signal (for the entry's symbol, produced by the
analysis on that symbol's data, passing the confidence floor, with the symbol
not in cooldown) is appended and its signal time recorded. -/
theorem scalpingStep_cases (cfg : ScalpingConfig) (marketData : String → Option MarketData)
    (orderBookOf : String → Option OrderBookSnapshot) (now : ℚ)
    (acc : List TradingSignal × List (String × ℚ)) (entry : String × Sector) :
    scalpingStep cfg marketData orderBookOf now acc entry = acc ∨
    ∃ s md ob, marketData entry.1 = some md ∧ orderBookOf entry.1 = some ob ∧
      analyzeScalpingOpportunity entry.1 entry.2 md ob cfg = some s ∧
      cfg.minConfidence ≤ s.confidence ∧
      isInCooldown acc.2 entry.1 cfg now = false ∧
      scalpingStep cfg marketData orderBookOf now acc entry =
        (acc.1 ++ [s], recordSignalTime acc.2 entry.1 now) := by
  unfold scalpingStep
  by_cases h1 : isInCooldown acc.2 entry.1 cfg now
  · rw [if_pos h1]
    exact Or.inl rfl
  · rw [if_neg h1]
    cases hm : marketData entry.1 with
    | none => exact Or.inl rfl
    | some md =>
      cases ho : orderBookOf entry.1 with
      | none => exact Or.inl rfl
      | some ob =>
        dsimp only
        by_cases hsp : checkSpreadConstraints ob cfg
        · rw [if_pos hsp]
          cases hana : analyzeScalpingOpportunity entry.1 entry.2 md ob cfg with
          | none => exact Or.inl rfl
          | some s =>
            dsimp only
            by_cases hconf : cfg.minConfidence ≤ s.confidence
            · rw [if_pos hconf]
              exact Or.inr ⟨s, md, ob, rfl, rfl, hana, hconf, by simpa using h1, rfl⟩
            · rw [if_neg hconf]
              exact Or.inl rfl
        · rw [if_neg hsp]
          exact Or.inl rfl

/-- Every signal accumulated by the scalping symbol loop has confidence in
[0, 1], provided min_volume_at_level is positive and the starting accumulator
satisfies the bound. -/
theorem scalpingFold_conf_bounds (cfg : ScalpingConfig)
    (marketData : String → Option MarketData)
    (orderBookOf : String → Option OrderBookSnapshot) (now : ℚ)
    (hvol : 0 < cfg.minVolumeAtLevel) :
    ∀ (entries : List (String × Sector)) (acc : List TradingSignal × List (String × ℚ)),
      (∀ s ∈ acc.1, 0 ≤ s.confidence ∧ s.confidence ≤ 1) →
      ∀ s ∈ (entries.foldl (scalpingStep cfg marketData orderBookOf now) acc).1,
        0 ≤ s.confidence ∧ s.confidence ≤ 1 := by
  intro entries
  induction entries with
  | nil => exact fun acc hacc s hs => hacc s hs
  | cons e es ih =>
    intro acc hacc
    rw [List.foldl_cons]
    apply ih
    rcases scalpingStep_cases cfg marketData orderBookOf now acc e with
      heq | ⟨s, md, ob, hm, ho, hana, hconf, hcd, heq⟩
    · rw [heq]
      exact hacc
    · rw [heq]
      intro t ht
      rcases List.mem_append.mp ht with ht | ht
      · exact hacc t ht
      · have hts : t = s := by simpa using ht
        subst hts
        obtain ⟨hsym, hc⟩ := analyzeScalpingOpportunity_inv hana
        exact calculateScalpingConfidence_bounds (calculateBidAskImbalance_nonneg ob) hvol hc

/-- C1 (amended): scalping signals always have confidence in [0, 1] provided
config.min_volume_at_level is positive.  Gap-short and breakout confidences
are unclamped weighted sums: with nonnegative 20-day average volumes (and, for
breakout, nonnegative open prices), an emitted signal's confidence lies in
[0, 1] only under the additional bound gap percentage ≤ 5 (gap-short, whose
emitted gap must also be ≥ 0 for the lower bound) respectively breakout
percentage ≤ 10 (breakout); larger gaps push the confidence above 1. -/
theorem signalConfidenceBounds :
    (∀ (cfg : ScalpingConfig) (marketData : String → Option MarketData)
      (orderBookOf : String → Option OrderBookSnapshot)
      (recentSignals : List (String × ℚ)) (now : ℚ),
      0 < cfg.minVolumeAtLevel →
      ∀ s ∈ (generateScalpingSignals cfg marketData orderBookOf recentSignals now).1,
        0 ≤ s.confidence ∧ s.confidence ≤ 1) ∧
    (∀ (cfg : StrategyConfig) (inp : GapShortInputs),
      (∀ symbol, 0 ≤ inp.avgVolume20d symbol) →
      ∀ s ∈ generateSignals cfg inp, 0 ≤ s.gapPercentage → s.gapPercentage ≤ 5 →
        0 ≤ s.confidence ∧ s.confidence ≤ 1) ∧
    (∀ (sCfg : StrategyConfig) (bCfg : BreakoutConfig) (inp : BreakoutInputs),
      (∀ symbol, 0 ≤ inp.avgVolume20d symbol) →
      (∀ symbol md, inp.marketData symbol = some md → 0 ≤ md.openPrice) →
      ∀ s ∈ generateBreakoutSignals sCfg bCfg inp, s.gapPercentage ≤ 10 →
        0 ≤ s.confidence ∧ s.confidence ≤ 1) := by
  refine ⟨?_, ?_, ?_⟩
  · intro cfg marketData orderBookOf recentSignals now hvol s hs
    unfold generateScalpingSignals at hs
    dsimp only at hs
    rw [mem_sortByConfidenceDesc] at hs
    unfold scalpingFold at hs
    exact scalpingFold_conf_bounds cfg marketData orderBookOf now hvol scalpingUniverse
      ([], recentSignals) (by simp) s hs
  · intro cfg inp havg s hs hg0 hg5
    unfold generateSignals at hs
    split_ifs at hs
    · simp at hs
    · rw [mem_sortByConfidenceDesc] at hs
      unfold gapShortScan at hs
      obtain ⟨p, hp, hps⟩ := List.mem_filterMap.mp hs
      exact gapShortScanSymbol_confidence (havg p.1) hps hg0 hg5
  · intro sCfg bCfg inp havg hopen s hs hg10
    unfold generateBreakoutSignals at hs
    rw [mem_sortByConfidenceDesc] at hs
    obtain ⟨p, hp, hps⟩ := List.mem_filterMap.mp hs
    exact breakoutScanSymbol_confidence (havg p.1) (hopen p.1) hps hg10

/-- Scalping config used by the C1 witness and the C6 witness. -/
def scalpCfg : ScalpingConfig := ⟨2, 1000, 2, 4, 60, 1, 3, 0.5⟩

/-- Market data for RELIANCE.NS used by the C1 and C6 witnesses. -/
def scalpMd : MarketData := ⟨"RELIANCE.NS", 100, 100, 100, 100, 1000, 100⟩

/-- Order book for RELIANCE.NS used by the C1 and C6 witnesses: strong bid
imbalance 3000 versus 1000 within the spread constraints. -/
def scalpBook : OrderBookSnapshot :=
  ⟨"RELIANCE.NS", [⟨100, 3000, 1, "BID"⟩], [⟨100.02, 1000, 1, "ASK"⟩], 100, 10⟩

/-- Quotes map used by the C1 and C6 witnesses. -/
def scalpData : String → Option MarketData :=
  fun s => if s = "RELIANCE.NS" then some scalpMd else none

/-- Order-book map used by the C1 and C6 witnesses. -/
def scalpBookOf : String → Option OrderBookSnapshot :=
  fun s => if s = "RELIANCE.NS" then some scalpBook else none

/-- The scalping signal emitted in the C1 and C6 witness scenario. -/
def scalpWitnessSignal : TradingSignal :=
  ⟨"RELIANCE.NS", .AUTO, "LONG_BID_ASK_IMBALANCE", 100, 99.9, 100.2, 33/50, 0, 0, .fin 3⟩

/-- Witness for C1: the concrete scalping signal emitted at confidence 33/50
satisfies the bound. -/
theorem signalConfidenceBoundsWitness :
    0 ≤ scalpWitnessSignal.confidence ∧ scalpWitnessSignal.confidence ≤ 1 :=
  signalConfidenceBounds.1 scalpCfg scalpData scalpBookOf [] 0 (by decide)
    scalpWitnessSignal (by decide)

/-- Gap-short inputs of the C1 counterexample: a 10 percent gap with maximal
selling pressure and a 3x volume ratio on NESTLEIND.NS. -/
def overConfInputs : GapShortInputs :=
  ⟨1, fun s => if s = "NESTLEIND.NS" then some ⟨"", 100, 110, 111, 99, 3000, 100⟩ else none,
   fun _ => 200, fun _ => 1000, 6.5⟩

/-- Strategy config of the C1 counterexample (ordinary thresholds). -/
def overConfCfg : StrategyConfig := ⟨1000000, 1, 0.5, 40, 2, 1, 2, 0⟩

/-- Counterexample for C1 as stated: the gap-short generator emits a signal
with confidence 6/5 > 1 (selling pressure 100, volume ratio 3, gap 10 percent,
FMCG sector weight 1), so generator confidences are not confined to [0, 1]. -/
theorem gapShortConfidenceExceedsOneCex :
    (generateSignals overConfCfg overConfInputs).map (fun s => s.confidence) = [6/5] ∧
    ¬ ((6 : ℚ)/5 ≤ 1) :=
  ⟨by decide, by norm_num⟩

/-- Looking up the key just set in the recent-signals dict. -/
theorem assocFind_assocSet_self (l : List (String × ℚ)) (s : String) (t : ℚ) :
    assocFind (assocSet l s t) s = some t := by
  induction l with
  | nil => simp [assocSet, assocFind]
  | cons kv rest ih =>
    obtain ⟨k, v⟩ := kv
    unfold assocSet
    by_cases hk : k = s
    · rw [if_pos hk]
      unfold assocFind
      rw [if_pos rfl]
    · rw [if_neg hk]
      unfold assocFind
      rw [if_neg hk]
      exact ih

/-- Setting one key leaves the lookup of a different key unchanged. -/
theorem assocFind_assocSet_ne (l : List (String × ℚ)) (s : String) (t : ℚ) (x : String)
    (h : s ≠ x) : assocFind (assocSet l s t) x = assocFind l x := by
  induction l with
  | nil =>
    simp [assocSet, assocFind, h]
  | cons kv rest ih =>
    obtain ⟨k, v⟩ := kv
    unfold assocSet
    by_cases hk : k = s
    · rw [if_pos hk]
      unfold assocFind
      rw [if_neg h, if_neg (hk ▸ h)]
    · rw [if_neg hk]
      unfold assocFind
      by_cases hx : k = x
      · rw [if_pos hx, if_pos hx]
      · rw [if_neg hx, if_neg hx]
        exact ih

/-- While symbol X is inside its cooldown window, the scalping symbol loop
neither emits a signal for X nor disturbs X's recorded signal time. -/
theorem scalpingFold_cooldown (cfg : ScalpingConfig)
    (marketData : String → Option MarketData)
    (orderBookOf : String → Option OrderBookSnapshot) (now : ℚ) (X : String) (T : ℚ)
    (hcd : now < T + cfg.cooldownSeconds) :
    ∀ (entries : List (String × Sector)) (acc : List TradingSignal × List (String × ℚ)),
      assocFind acc.2 X = some T →
      (∀ s ∈ acc.1, s.symbol ≠ X) →
      assocFind (entries.foldl (scalpingStep cfg marketData orderBookOf now) acc).2 X =
        some T ∧
      ∀ s ∈ (entries.foldl (scalpingStep cfg marketData orderBookOf now) acc).1,
        s.symbol ≠ X := by
  intro entries
  induction entries with
  | nil => exact fun acc h1 h2 => ⟨h1, h2⟩
  | cons e es ih =>
    intro acc hfind hsig
    rw [List.foldl_cons]
    rcases scalpingStep_cases cfg marketData orderBookOf now acc e with
      heq | ⟨s, md, ob, hm, ho, hana, hconf, hcdf, heq⟩
    · rw [heq]
      exact ih acc hfind hsig
    · by_cases hx : e.1 = X
      · exfalso
        have : isInCooldown acc.2 e.1 cfg now = true := by
          unfold isInCooldown
          rw [hx, hfind]
          exact decide_eq_true hcd
        rw [this] at hcdf
        cases hcdf
      · rw [heq]
        apply ih
        · rw [recordSignalTime, assocFind_assocSet_ne _ _ _ _ hx]
          exact hfind
        · intro t ht
          rcases List.mem_append.mp ht with ht | ht
          · exact hsig t ht
          · have hts : t = s := by simpa using ht
            subst hts
            rw [(analyzeScalpingOpportunity_inv hana).1]
            exact hx

/-- When the scalping symbol loop has emitted a signal for X, X's recorded
signal time is the call's clock. -/
theorem scalpingFold_records (cfg : ScalpingConfig)
    (marketData : String → Option MarketData)
    (orderBookOf : String → Option OrderBookSnapshot) (now : ℚ) (X : String) :
    ∀ (entries : List (String × Sector)) (acc : List TradingSignal × List (String × ℚ)),
      ((∃ s ∈ acc.1, s.symbol = X) → assocFind acc.2 X = some now) →
      ((∃ s ∈ (entries.foldl (scalpingStep cfg marketData orderBookOf now) acc).1,
          s.symbol = X) →
        assocFind (entries.foldl (scalpingStep cfg marketData orderBookOf now) acc).2 X =
          some now) := by
  intro entries
  induction entries with
  | nil => exact fun acc h => h
  | cons e es ih =>
    intro acc hacc
    rw [List.foldl_cons]
    rcases scalpingStep_cases cfg marketData orderBookOf now acc e with
      heq | ⟨s, md, ob, hm, ho, hana, hconf, hcdf, heq⟩
    · rw [heq]
      exact ih acc hacc
    · rw [heq]
      apply ih
      rintro ⟨t, ht, htx⟩
      by_cases hx : e.1 = X
      · rw [recordSignalTime, hx]
        exact assocFind_assocSet_self _ _ _
      · rw [recordSignalTime, assocFind_assocSet_ne _ _ _ _ hx]
        rcases List.mem_append.mp ht with ht | ht
        · exact hacc ⟨t, ht, htx⟩
        · exfalso
          have hts : t = s := by simpa using ht
          subst hts
          exact hx ((analyzeScalpingOpportunity_inv hana).1 ▸ htx)

/-- The sorted signal list returned by a generate call, spelled out. -/
theorem generateScalpingSignals_fst (cfg : ScalpingConfig)
    (marketData : String → Option MarketData)
    (orderBookOf : String → Option OrderBookSnapshot)
    (recentSignals : List (String × ℚ)) (now : ℚ) :
    (generateScalpingSignals cfg marketData orderBookOf recentSignals now).1 =
      sortByConfidenceDesc (scalpingFold cfg marketData orderBookOf now recentSignals).1 := by
  unfold generateScalpingSignals
  dsimp only

/-- The updated recent-signals state returned by a generate call. -/
theorem generateScalpingSignals_snd (cfg : ScalpingConfig)
    (marketData : String → Option MarketData)
    (orderBookOf : String → Option OrderBookSnapshot)
    (recentSignals : List (String × ℚ)) (now : ℚ) :
    (generateScalpingSignals cfg marketData orderBookOf recentSignals now).2 =
      (scalpingFold cfg marketData orderBookOf now recentSignals).2 := by
  unfold generateScalpingSignals
  dsimp only

/-- The symbol loop of a generate call is a fold of scalpingStep. -/
theorem scalpingFold_eq (cfg : ScalpingConfig)
    (marketData : String → Option MarketData)
    (orderBookOf : String → Option OrderBookSnapshot)
    (now : ℚ) (recentSignals : List (String × ℚ)) :
    scalpingFold cfg marketData orderBookOf now recentSignals =
      scalpingUniverse.foldl (scalpingStep cfg marketData orderBookOf now)
        ([], recentSignals) :=
  rfl

/-- A call trace with no calls produces no outputs and keeps the state. -/
theorem runScalpingCalls_nil (cfg : ScalpingConfig) (recentSignals : List (String × ℚ)) :
    runScalpingCalls cfg [] recentSignals = ([], recentSignals) :=
  rfl

/-- Output lists of a call trace, one step unrolled. -/
theorem runScalpingCalls_cons_fst (cfg : ScalpingConfig) (now : ℚ)
    (marketData : String → Option MarketData)
    (orderBookOf : String → Option OrderBookSnapshot)
    (rest : List (ℚ × (String → Option MarketData) × (String → Option OrderBookSnapshot)))
    (recentSignals : List (String × ℚ)) :
    (runScalpingCalls cfg ((now, marketData, orderBookOf) :: rest) recentSignals).1 =
      (generateScalpingSignals cfg marketData orderBookOf recentSignals now).1 ::
        (runScalpingCalls cfg rest
          (generateScalpingSignals cfg marketData orderBookOf recentSignals now).2).1 :=
  rfl

/-- Final state of a call trace, one step unrolled. -/
theorem runScalpingCalls_cons_snd (cfg : ScalpingConfig) (now : ℚ)
    (marketData : String → Option MarketData)
    (orderBookOf : String → Option OrderBookSnapshot)
    (rest : List (ℚ × (String → Option MarketData) × (String → Option OrderBookSnapshot)))
    (recentSignals : List (String × ℚ)) :
    (runScalpingCalls cfg ((now, marketData, orderBookOf) :: rest) recentSignals).2 =
      (runScalpingCalls cfg rest
        (generateScalpingSignals cfg marketData orderBookOf recentSignals now).2).2 :=
  rfl

/-- Across a sequence of generate calls all strictly inside X's cooldown
window, no call emits a signal for X and X's recorded time is untouched. -/
theorem runScalpingCalls_no_reemission (cfg : ScalpingConfig) (X : String) (T : ℚ)
    (calls : List (ℚ × (String → Option MarketData) × (String → Option OrderBookSnapshot)))
    (htimes : ∀ c ∈ calls, c.1 < T + cfg.cooldownSeconds) :
    ∀ recentSignals, assocFind recentSignals X = some T →
      (∀ out ∈ (runScalpingCalls cfg calls recentSignals).1, ∀ s ∈ out, s.symbol ≠ X) ∧
      assocFind (runScalpingCalls cfg calls recentSignals).2 X = some T := by
  induction calls with
  | nil =>
    intro recentSignals hfind
    refine ⟨?_, ?_⟩
    · intro out hout
      rw [runScalpingCalls_nil] at hout
      exact absurd hout (List.not_mem_nil _)
    · rw [runScalpingCalls_nil]
      exact hfind
  | cons c rest ih =>
    obtain ⟨now, marketData, orderBookOf⟩ := c
    intro recentSignals hfind
    have hnow : now < T + cfg.cooldownSeconds := htimes _ (List.mem_cons_self _ _)
    have hstep := scalpingFold_cooldown cfg marketData orderBookOf now X T hnow
      scalpingUniverse ([], recentSignals) hfind
      (fun s hs => absurd hs (List.not_mem_nil s))
    have hstate : assocFind
        (generateScalpingSignals cfg marketData orderBookOf recentSignals now).2 X =
        some T := by
      rw [generateScalpingSignals_snd, scalpingFold_eq]
      exact hstep.1
    have hrest := ih (fun c hc => htimes c (List.mem_cons_of_mem _ hc)) _ hstate
    refine ⟨?_, ?_⟩
    · intro out hout
      rw [runScalpingCalls_cons_fst] at hout
      rcases List.mem_cons.mp hout with hout | hout
      · intro s hs
        rw [hout, generateScalpingSignals_fst, mem_sortByConfidenceDesc,
          scalpingFold_eq] at hs
        exact hstep.2 s hs
      · exact hrest.1 out hout
    · rw [runScalpingCalls_cons_snd]
      exact hrest.2

/-- C6: once generate_scalping_signals emits a signal for symbol X at time T,
no later call to generate_scalping_signals made at any time strictly before
T + cooldown_seconds emits another signal for X, even across repeated calls
and regardless of the (possibly unchanged) market and order-book data each
later call observes. -/
theorem scalpingCooldownEnforced (cfg : ScalpingConfig)
    (marketData0 : String → Option MarketData)
    (orderBookOf0 : String → Option OrderBookSnapshot)
    (recent0 : List (String × ℚ)) (T : ℚ) (X : String)
    (calls : List (ℚ × (String → Option MarketData) × (String → Option OrderBookSnapshot)))
    (hemit : ∃ s ∈ (generateScalpingSignals cfg marketData0 orderBookOf0 recent0 T).1,
      s.symbol = X)
    (htimes : ∀ c ∈ calls, c.1 < T + cfg.cooldownSeconds) :
    ∀ out ∈ (runScalpingCalls cfg calls
        (generateScalpingSignals cfg marketData0 orderBookOf0 recent0 T).2).1,
      ∀ s ∈ out, s.symbol ≠ X := by
  have hrec : assocFind
      (generateScalpingSignals cfg marketData0 orderBookOf0 recent0 T).2 X = some T := by
    rw [generateScalpingSignals_snd, scalpingFold_eq]
    apply scalpingFold_records cfg marketData0 orderBookOf0 T X scalpingUniverse
      ([], recent0)
    · rintro ⟨s, hs, _⟩
      exact absurd hs (List.not_mem_nil s)
    · obtain ⟨s, hs, hsx⟩ := hemit
      rw [generateScalpingSignals_fst, mem_sortByConfidenceDesc, scalpingFold_eq] at hs
      exact ⟨s, hs, hsx⟩
  exact (runScalpingCalls_no_reemission cfg X T calls htimes _ hrec).1

set_option maxHeartbeats 2000000 in
/-- C6 witness: in the concrete scalping scenario the service emits a signal
for RELIANCE.NS at time 0 under a 60-second cooldown; repeating the identical
call at time 30 produces an output that does not contain that signal. -/
theorem scalpingCooldownEnforcedWitness :
    scalpWitnessSignal ∉
      ((runScalpingCalls scalpCfg [(30, scalpData, scalpBookOf)]
        (generateScalpingSignals scalpCfg scalpData scalpBookOf [] 0).2).1.headD []) :=
  fun hmem =>
    scalpingCooldownEnforced scalpCfg scalpData scalpBookOf [] 0 "RELIANCE.NS"
      [(30, scalpData, scalpBookOf)]
      ⟨scalpWitnessSignal, by decide, rfl⟩
      (by
        intro c hc
        rw [List.mem_singleton] at hc
        subst hc
        decide)
      _ (by decide) scalpWitnessSignal hmem rfl

/-- The monitor_positions branch condition that closes a tracked position:
the broker no longer reports the symbol and the entry order shows as TRADED
or COMPLETE (src/services/position_service.py lines 77-92). -/
def closesNow (brokerPositions : List BrokerPositionRec) (orders : List BrokerOrderRec)
    (e : String × Position) : Bool :=
  (findBrokerPosition e.1 brokerPositions).isNone &&
    (match findOrderInfo e.2.orderId orders with
     | some oi => oi.status == "TRADED" || oi.status == "COMPLETE"
     | none => false)

/-- A position entry satisfying the closing condition lands in closedSyms. -/
theorem mem_closedSyms_of_closes (brokerPositions : List BrokerPositionRec)
    (orders : List BrokerOrderRec) :
    ∀ (ps : List (String × Position)) (e : String × Position), e ∈ ps →
      closesNow brokerPositions orders e = true →
      e.1 ∈ (monitorLoop brokerPositions orders ps).closedSyms := by
  intro ps
  induction ps with
  | nil =>
    intro e he _
    exact absurd he (List.not_mem_nil e)
  | cons hd rest ih =>
    intro e he hc
    obtain ⟨symbol, position⟩ := hd
    unfold monitorLoop
    dsimp only
    rcases List.mem_cons.mp he with he | he
    · subst he
      simp only [closesNow, Bool.and_eq_true] at hc
      obtain ⟨h1, h2⟩ := hc
      rw [Option.isNone_iff_eq_none] at h1
      rw [h1]
      cases hoi : findOrderInfo position.orderId orders with
      | none =>
        rw [hoi] at h2
        dsimp only at h2
        exact Bool.noConfusion h2
      | some oi =>
        rw [hoi] at h2
        dsimp only at h2
        dsimp only
        rw [if_pos h2]
        exact List.mem_cons_self _ _
    · have hmem := ih e he hc
      cases hbp : findBrokerPosition symbol brokerPositions with
      | some bp => exact hmem
      | none =>
        cases hoi : findOrderInfo position.orderId orders with
        | some oi =>
          dsimp only
          split_ifs with hcond
          · exact List.mem_cons_of_mem _ hmem
          · exact hmem
        | none => exact hmem

/-- If no entry of the positions dict satisfies the closing condition, the
monitor loop reports zero realized P&L and closes nothing. -/
theorem monitorLoop_all_open (brokerPositions : List BrokerPositionRec)
    (orders : List BrokerOrderRec) :
    ∀ (ps : List (String × Position)),
      (∀ e ∈ ps, closesNow brokerPositions orders e = false) →
      (monitorLoop brokerPositions orders ps).realized = 0 ∧
      (monitorLoop brokerPositions orders ps).closedRecs = [] := by
  intro ps
  induction ps with
  | nil => exact fun _ => ⟨rfl, rfl⟩
  | cons hd rest ih =>
    intro hall
    obtain ⟨symbol, position⟩ := hd
    have hrest := ih (fun e he => hall e (List.mem_cons_of_mem _ he))
    have hhd := hall (symbol, position) (List.mem_cons_self _ _)
    simp only [closesNow] at hhd
    unfold monitorLoop
    dsimp only
    cases hbp : findBrokerPosition symbol brokerPositions with
    | some bp => exact ⟨hrest.1, hrest.2⟩
    | none =>
      rw [hbp] at hhd
      simp only [Option.isNone_none, Bool.true_and] at hhd
      cases hoi : findOrderInfo position.orderId orders with
      | some oi =>
        rw [hoi] at hhd
        dsimp only at hhd
        dsimp only
        split_ifs with hcond
        · exfalso
          rw [hhd] at hcond
          exact Bool.noConfusion hcond
        · exact hrest
      | none => exact hrest

/-- First component of monitor_positions: the P&L summary. -/
theorem monitorPositions_fst (brokerPositions : List BrokerPositionRec)
    (orders : List BrokerOrderRec) (positions : List (String × Position)) :
    (monitorPositions brokerPositions orders positions).1 =
      ⟨(monitorLoop brokerPositions orders positions).realized,
       (monitorLoop brokerPositions orders positions).unrealized,
       (monitorLoop brokerPositions orders positions).closedRecs⟩ :=
  rfl

/-- Second component of monitor_positions: the surviving positions dict. -/
theorem monitorPositions_snd (brokerPositions : List BrokerPositionRec)
    (orders : List BrokerOrderRec) (positions : List (String × Position)) :
    (monitorPositions brokerPositions orders positions).2 =
      positions.filter
        (fun e =>
          ! (monitorLoop brokerPositions orders positions).closedSyms.contains e.1) :=
  rfl

/-- C7: monitor_positions is idempotent with respect to realized P&L: for
every positions dict, calling it a second time with unchanged broker
positions and orders on the positions the first call left tracked yields a
realized P&L of zero and an empty closed-positions list. -/
theorem monitorPositionsIdempotent (brokerPositions : List BrokerPositionRec)
    (orders : List BrokerOrderRec) (positions : List (String × Position)) :
    (monitorPositions brokerPositions orders
        (monitorPositions brokerPositions orders positions).2).1.realizedPnl = 0 ∧
    (monitorPositions brokerPositions orders
        (monitorPositions brokerPositions orders positions).2).1.closedPositions = [] := by
  have hopen : ∀ e ∈ (monitorPositions brokerPositions orders positions).2,
      closesNow brokerPositions orders e = false := by
    intro e he
    rw [monitorPositions_snd] at he
    obtain ⟨hmem, hkeep⟩ := List.mem_filter.mp he
    cases hc : closesNow brokerPositions orders e with
    | false => rfl
    | true =>
      exfalso
      have hin := mem_closedSyms_of_closes brokerPositions orders positions e hmem hc
      simp only [Bool.not_eq_true'] at hkeep
      have h2 : (monitorLoop brokerPositions orders positions).closedSyms.contains e.1 =
          true := List.elem_eq_true_of_mem hin
      rw [hkeep] at h2
      exact Bool.noConfusion h2
  have hloop := monitorLoop_all_open brokerPositions orders
      (monitorPositions brokerPositions orders positions).2 hopen
  rw [monitorPositions_fst]
  exact ⟨hloop.1, hloop.2⟩
